import Mathlib

/-!
Verification of the SAR Narrative Generator's core behaviour: a shallow
embedding of the case/version/audit store, the narrative generator with its
template fallback, the reasoning-trailer parser, the risk-indicator
extractor, the retrieval service and the alert service, together with
theorems settling the specification's claims about them.

Python strings are modelled as `List Char`, and the handful of Python string
operations the code uses (`in`, `split`, `strip`, `startswith`, `upper`,
`lower`, `replace`) are given direct recursive implementations below.
-/

namespace SARModel

/-- Python strings, modelled as lists of characters. -/
abbrev Str := List Char

/-- Worker for `strContains`: does `pat` start at any position of `s`? -/
def strContainsAux (pat : Str) : Str → Bool
  | [] => pat.isPrefixOf []
  | c :: rest => pat.isPrefixOf (c :: rest) || strContainsAux pat rest

/-- Python `pat in s` (substring containment). -/
def strContains (s pat : Str) : Bool := strContainsAux pat s

/-- Auxiliary worker for `pySplitOn`; `acc` is the current chunk, reversed.
Fuel-structured so that it reduces in the kernel: every step consumes at
least one character, so `s.length + 1` fuel always suffices and the
out-of-fuel branch is unreachable from `pySplitOn`. -/
def pySplitOnAux (sep : Str) : Nat → Str → Str → List Str
  | 0, s, acc => [acc.reverse ++ s]
  | _ + 1, [], acc => [acc.reverse]
  | fuel + 1, c :: rest, acc =>
    if sep.isPrefixOf (c :: rest) then
      acc.reverse :: pySplitOnAux sep fuel (List.drop sep.length (c :: rest)) []
    else
      pySplitOnAux sep fuel rest (c :: acc)

/-- Python `s.split(sep)` for a non-empty separator (the only way the source
calls it); splits at each non-overlapping occurrence, left to right. -/
def pySplitOn (sep s : Str) : List Str :=
  if sep = [] then [s] else pySplitOnAux sep (s.length + 1) s []

/-- Python `s.strip()`: remove leading and trailing whitespace. -/
def pyStrip (s : Str) : Str :=
  ((s.dropWhile Char.isWhitespace).reverse.dropWhile Char.isWhitespace).reverse

/-- Python `s.upper()` (ASCII, which is all the source compares). -/
def pyUpper (s : Str) : Str := s.map Char.toUpper

/-- Python `s.lower()` (ASCII, which is all the source compares). -/
def pyLower (s : Str) : Str := s.map Char.toLower

/-- Python `s.startswith(pat)`. -/
def pyStartsWith (s pat : Str) : Bool := pat.isPrefixOf s

/-- Python `s.split()` (no argument): split on whitespace runs, no empties. -/
def pyWordsAux : Str → Str → List Str
  | [], acc => if acc.isEmpty then [] else [acc.reverse]
  | c :: rest, acc =>
    if c.isWhitespace then
      if acc.isEmpty then pyWordsAux rest [] else acc.reverse :: pyWordsAux rest []
    else pyWordsAux rest (c :: acc)

/-- Python `s.split()` with no separator argument. -/
def pyWords (s : Str) : List Str := pyWordsAux s []

/-- Python `s.replace(c, d)` for single-character arguments. -/
def pyReplaceChar (s : Str) (c d : Char) : Str :=
  s.map (fun x => if x = c then d else x)

/-- Python `sep.join(parts)`. -/
def pyJoin (sep : Str) : List Str → Str
  | [] => []
  | [p] => p
  | p :: rest => p ++ sep ++ pyJoin sep rest

/-- Insert thousands separators into a digit string, as Python's `,` format
specifier does (grouping by three from the right). -/
def groupThousandsAux : Nat → List Char → List Char
  | _, [] => []
  | k, c :: rest =>
    if k % 3 = 0 ∧ k ≠ 0 then c :: ',' :: groupThousandsAux (k - 1) rest
    else c :: groupThousandsAux (k - 1) rest

/-- Digits of a natural number with thousands separators, modelling Python's
`,` format grouping. -/
def groupThousands (n : Nat) : Str :=
  let ds := (Nat.repr n).data
  (groupThousandsAux (ds.length - 1) ds)

/-- Python `f"{n:,.2f}"` for a whole-valued amount (amounts are modelled as
naturals; the source stores them as floats but every claim uses integers). -/
def fmtMoney2 (n : Nat) : Str := groupThousands n ++ (".00").data

/-- Python `f"{n:,.0f}"` for a whole-valued amount. -/
def fmtMoney0 (n : Nat) : Str := groupThousands n

/-- Decimal representation of a natural, as Python interpolates an `int`. -/
def natStr (n : Nat) : Str := (Nat.repr n).data

/-! ## Reasoning extractor (`SARGenerator._parse_audit_from_narrative`) -/

/-- The structured audit fields the extractor fills in
(`sar_generator.py:256-263`). -/
structure AuditInfo where
  data_sources_used : List Str
  typologies_matched : List Str
  confidence_level : Str
  key_factors : List Str
  limitations : List Str
  rules_matched : List Str
deriving DecidableEq

/-- The dictionary the extractor starts from: MEDIUM confidence, empty lists. -/
def defaultAudit : AuditInfo :=
  { data_sources_used := []
    typologies_matched := []
    confidence_level := ("MEDIUM").data
    key_factors := []
    limitations := []
    rules_matched := [] }

/-- The subsection of the trailer that bulleted lines are collected under. -/
inductive TrailerSection
  | dataSources
  | typologies
  | confidence
  | limitations
deriving DecidableEq

/-- The short marker the extractor tests with `in` (`sar_generator.py:265`). -/
def auditMarker : Str := ("AUDIT TRAIL - REASONING LOG").data

/-- The full header line the extractor splits on (`sar_generator.py:266`). -/
def auditHeader : Str := ("### AUDIT TRAIL - REASONING LOG").data

/-- The `for level in ["CRITICAL", "HIGH", "MEDIUM", "LOW"]` scan with first
match winning (`sar_generator.py:288-291`). -/
def confidenceScan (lineUpper : Str) : Option Str :=
  if strContains lineUpper (("CRITICAL").data) then some (("CRITICAL").data)
  else if strContains lineUpper (("HIGH").data) then some (("HIGH").data)
  else if strContains lineUpper (("MEDIUM").data) then some (("MEDIUM").data)
  else if strContains lineUpper (("LOW").data) then some (("LOW").data)
  else none

/-- One iteration of the extractor's line loop (`sar_generator.py:269-295`):
recognise a section header, or collect a `- ` bullet under the current
section; under the confidence section a bullet mentioning `confidence:` is
scanned for a severity token, any other bullet is a key factor. -/
def parseAuditLine (st : AuditInfo × Option TrailerSection) (rawLine : Str) :
    AuditInfo × Option TrailerSection :=
  let line := pyStrip rawLine
  let audit := st.1
  let cs := st.2
  if strContains line (("DATA SOURCES USED").data) then (audit, some .dataSources)
  else if strContains line (("RULES/TYPOLOGIES MATCHED").data) then (audit, some .typologies)
  else if strContains line (("CONFIDENCE ASSESSMENT").data) then (audit, some .confidence)
  else if strContains line (("LIMITATIONS").data) then (audit, some .limitations)
  else if pyStartsWith line (("- ").data) ∧ cs.isSome then
    let item := pyStrip (line.drop 2)
    match cs with
    | some .dataSources =>
        ({ audit with data_sources_used := audit.data_sources_used ++ [item] }, cs)
    | some .typologies =>
        ({ audit with
            typologies_matched := audit.typologies_matched ++ [item]
            rules_matched := audit.rules_matched ++ [item] }, cs)
    | some .confidence =>
        if strContains (pyLower line) (("confidence:").data) then
          match confidenceScan (pyUpper line) with
          | some lvl => ({ audit with confidence_level := lvl }, cs)
          | none => (audit, cs)
        else ({ audit with key_factors := audit.key_factors ++ [item] }, cs)
    | some .limitations =>
        ({ audit with limitations := audit.limitations ++ [item] }, cs)
    | none => (audit, cs)
  else (audit, cs)

/-- `SARGenerator._parse_audit_from_narrative` (`sar_generator.py:254-298`):
if the marker is absent the defaults are returned; otherwise the text after
the first full header occurrence is stripped, split into lines and folded
through `parseAuditLine`.  The source's `split(...)[1]` raising `IndexError`
(marker present without the `###` header) is caught by its
`except Exception`, returning the untouched defaults; every other statement
is total, so the extractor never raises. -/
def parse_audit_from_narrative (narrative : Str) : AuditInfo :=
  if strContains narrative auditMarker then
    match (pySplitOn auditHeader narrative).get? 1 with
    | none => defaultAudit
    | some sect =>
      let lines := pySplitOn (("\n").data) (pyStrip sect)
      (lines.foldl parseAuditLine (defaultAudit, none)).1
  else defaultAudit

/-! ## Risk indicator extractor (`SARGenerator._extract_risk_indicators`)

The Python code receives the customer and alert as dictionaries and reads a
fixed set of keys with `get` defaults; they are modelled as records holding
exactly those fields (a missing key is the corresponding `get` default).
Monetary amounts are stored as floats in the source but every rule and every
claim uses whole amounts, so they are modelled as naturals. -/

/-- The customer fields `_extract_risk_indicators` and the template fallback
read (`sar_generator.py:217-252,363-375`). -/
structure CustomerData where
  full_name : Str
  customer_id : Str
  occupation : Str
  risk_rating : Str
  kyc_status : Str
  pep_status : Bool
  annual_income : Nat
deriving DecidableEq

/-- The alert fields `_extract_risk_indicators` and the template fallback
read. -/
structure AlertData where
  alert_type : Str
  total_amount : Nat
  transaction_count : Nat
  date_range_start : Str
  date_range_end : Str
  jurisdictions_involved : List Str
  counterparties : List Str
  triggering_factors : List Str
deriving DecidableEq

/-- A raw transaction; the extractor only reads `t.get("amount", 0)`. -/
structure Txn where
  amount : Nat
deriving DecidableEq

/-- The fixed high-risk jurisdiction list (`sar_generator.py:233`). -/
def HIGH_RISK_JURISDICTIONS : List Str :=
  [("Iran").data, ("North Korea").data, ("Syria").data,
   ("Russia").data, ("Afghanistan").data, ("Myanmar").data]

/-- The fixed pass-through alert-type set (`sar_generator.py:241`). -/
def PASS_THROUGH_TYPES : List Str :=
  [("RAPID_MOVEMENT").data, ("ROUND_TRIP").data, ("PASS_THROUGH").data]

/-- `SARGenerator._extract_risk_indicators` (`sar_generator.py:217-252`):
each rule is evaluated independently and contributes zero or one formatted
indicator string, in declaration order; any triggering factors supplied on
the alert are appended verbatim at the end. -/
def extract_risk_indicators (customer : CustomerData) (alert : AlertData)
    (transactions : List Txn) : List Str :=
  let total_amount := alert.total_amount
  let tx_count := alert.transaction_count
  let i1 : List Str :=
    if total_amount > 10000 then
      [("HIGH VALUE: Total transactions of £").data ++ fmtMoney2 total_amount ++
        (" exceed £10,000 threshold").data]
    else []
  let i2 : List Str :=
    if tx_count > 10 then
      [("HIGH FREQUENCY: ").data ++ natStr tx_count ++
        (" transactions detected in monitoring window").data]
    else []
  let i3 : List Str :=
    if customer.pep_status then
      [("PEP CUSTOMER: Subject is a Politically Exposed Person").data]
    else []
  let i4 : List Str :=
    if customer.risk_rating = ("HIGH").data ∨ customer.risk_rating = ("VERY HIGH").data then
      [("HIGH RISK CUSTOMER: Customer holds ").data ++ customer.risk_rating ++
        (" risk rating").data]
    else []
  let high_risk_j := alert.jurisdictions_involved.filter
    (fun j => HIGH_RISK_JURISDICTIONS.contains j)
  let i5 : List Str :=
    if high_risk_j ≠ [] then
      [("HIGH RISK JURISDICTION: Transactions linked to ").data ++
        pyJoin ((", ").data) high_risk_j]
    else []
  let amounts_near_threshold :=
    (transactions.map Txn.amount).filter (fun a => 8000 ≤ a ∧ a ≤ 9999)
  let i6 : List Str :=
    if transactions ≠ [] ∧ amounts_near_threshold ≠ [] then
      [("STRUCTURING SUSPECTED: ").data ++ natStr amounts_near_threshold.length ++
        (" transactions near but below £10,000 reporting threshold").data]
    else []
  let i7 : List Str :=
    if PASS_THROUGH_TYPES.contains (pyUpper alert.alert_type) then
      [("PASS-THROUGH PATTERN: Rapid in-out transaction pattern detected").data]
    else []
  let i8 : List Str :=
    if customer.annual_income ≠ 0 ∧ total_amount > customer.annual_income * 2 then
      [("INCOME DISPARITY: Transaction volume (£").data ++ fmtMoney0 total_amount ++
        (") exceeds 2x stated annual income (£").data ++
        fmtMoney0 customer.annual_income ++ (")").data]
    else []
  let i9 : List Str :=
    if alert.counterparties.length > 10 then
      [("MULTIPLE COUNTERPARTIES: ").data ++ natStr alert.counterparties.length ++
        (" distinct counterparties involved").data]
    else []
  i1 ++ i2 ++ i3 ++ i4 ++ i5 ++ i6 ++ i7 ++ i8 ++ i9 ++ alert.triggering_factors

/-! ## Template fallback and generation orchestration
(`SARGenerator._generate_template_fallback`, `SARGenerator.generate_narrative`) -/

/-- The fixed opening of the fallback narrative, up to the first
interpolation; it carries the literal `LLM UNAVAILABLE` marker. -/
def fbHead : Str :=
  ("## SUSPICIOUS ACTIVITY REPORT - DRAFT NARRATIVE\n**[TEMPLATE-GENERATED - LLM UNAVAILABLE - HUMAN REVIEW REQUIRED]**\n\n---\n\n### 1. EXECUTIVE SUMMARY\nThis Suspicious Activity Report is filed in respect of ").data

/-- The part of the fallback narrative before the audit-trailer header line:
executive summary, subject information and sections 3-7 of the template,
transcribed interpolation by interpolation from the source f-string
(trailing spaces on the wrapped lines included). -/
def fbBody (customer_data : CustomerData) (alert_data : AlertData) : Str :=
  let name := customer_data.full_name
  let cid := customer_data.customer_id
  let amount := alert_data.total_amount
  let tx_count := alert_data.transaction_count
  let dt_start := alert_data.date_range_start
  let dt_end := alert_data.date_range_end
  let risk := customer_data.risk_rating
  let occupation := customer_data.occupation
  let at' := pyReplaceChar alert_data.alert_type '_' ' '
  fbHead ++ name ++ (" (Customer ID: ").data ++ cid ++ (") \nfollowing detection of ").data ++
  at' ++ (" activity. During the reporting period \n").data ++
  dt_start ++ (" to ").data ++ dt_end ++ (", transactions totalling £").data ++
  fmtMoney2 amount ++ (" across ").data ++ natStr tx_count ++
  (" transactions \nwere identified as potentially suspicious.\n\n---\n\n### 2. SUBJECT INFORMATION\n- **Full Name:** ").data ++
  name ++ ("\n- **Customer ID:** ").data ++ cid ++
  ("\n- **Occupation:** ").data ++ occupation ++
  ("\n- **Risk Rating:** ").data ++ risk ++
  ("\n- **KYC Status:** ").data ++ customer_data.kyc_status ++
  ("\n- **PEP Status:** ").data ++
  (if customer_data.pep_status then ("YES").data else ("NO").data) ++
  ("\n\n---\n\n### 3. DESCRIPTION OF SUSPICIOUS ACTIVITY\nThe account was flagged for ").data ++
  at' ++ (" during the period ").data ++ dt_start ++ (" to ").data ++ dt_end ++
  (". \nThe total value of transactions under review amounts to £").data ++
  fmtMoney2 amount ++ (" across ").data ++ natStr tx_count ++
  (" individual \ntransactions. This activity appears inconsistent with the customer's stated profile.\n\n---\n\n### 4. TIMELINE OF EVENTS\nSee attached transaction data for full chronological record.\n\n---\n\n### 5. TYPOLOGY MATCH\nBased on available data, this activity may match: suspicious transaction patterns.\n\n---\n\n### 6. REGULATORY BASIS FOR FILING\nThis SAR is filed pursuant to the Proceeds of Crime Act 2002 (POCA), sections 330-332.\n\n---\n\n### 7. CONCLUSION\nRecommend human analyst review and completion of this narrative. LLM generation was unavailable.\n\n---\n\n").data

/-- The part of the fallback narrative after the audit-trailer header line:
the structured trailer with its LOW confidence and human-review
limitations. -/
def fbTrailer (customer_data : CustomerData) (alert_data : AlertData) : Str :=
  let cid := customer_data.customer_id
  let alert_type := alert_data.alert_type
  let at' := pyReplaceChar alert_type '_' ' '
  ("\nDATA SOURCES USED:\n- Customer KYC profile (customer_id: ").data ++
  cid ++ (")\n- Transaction alert data (alert_type: ").data ++ alert_type ++
  (")\n- Template-based fallback (LLM unavailable)\n\nRULES/TYPOLOGIES MATCHED:\n- ").data ++
  at' ++ (" pattern detected\n\nCONFIDENCE ASSESSMENT:\n- Overall suspicion confidence: LOW\n- Key factors driving the assessment: LLM unavailable, requires human review\n\nLIMITATIONS AND CAVEATS:\n- This narrative was generated using a template fallback; LLM was not available\n- Human analyst MUST review and complete this narrative before submission\n").data

/-- `SARGenerator._generate_template_fallback` (`sar_generator.py:363-442`):
the deterministic template used when the backend raises.  The f-string is
transcribed verbatim, grouped as the text before the `### AUDIT TRAIL -
REASONING LOG` header line, the header itself, and the trailer after it. -/
def generate_template_fallback (customer_data : CustomerData) (alert_data : AlertData) : Str :=
  fbBody customer_data alert_data ++ auditHeader ++ fbTrailer customer_data alert_data

/-- The result record `generate_narrative` returns (`sar_generator.py:118-131`,
`338-361`).  The parsed trailer fields are carried both inside the structured
`audit_trail` and as the flattened convenience fields, exactly as the source
populates them. -/
structure GenerationResult where
  narrative : Str
  audit_trail : AuditInfo
  risk_indicators_extracted : List Str
  model_used : Str
  prompt_hash : Str
  tokens_used : Option Nat
  confidence_level : Str
  typologies_matched : List Str
  data_sources_used : List Str
  rules_matched : List Str
deriving DecidableEq

/-- `SARGenerator.generate_narrative` (`sar_generator.py:300-361`).  The
retrieval context, prompt assembly and SHA-256 fingerprint are produced by
external libraries and are represented by the `model_name` / `prompt_hash`
parameters; the backend call is represented by `llmOutcome`: `some (text,
tokens)` is a successful completion, `none` is the backend raising, which the
source catches, substituting the deterministic template fallback.  Either
way the same trailer parse and the same result shape are used. -/
def generate_narrative (llmOutcome : Option (Str × Option Nat)) (model_name prompt_hash : Str)
    (customer_data : CustomerData) (alert_data : AlertData)
    (transaction_data : List Txn) : GenerationResult :=
  let nt := match llmOutcome with
    | some (text, toks) => (text, toks)
    | none => (generate_template_fallback customer_data alert_data, none)
  let narrative := nt.1
  let audit := parse_audit_from_narrative narrative
  { narrative := narrative
    audit_trail := audit
    risk_indicators_extracted :=
      extract_risk_indicators customer_data alert_data transaction_data
    model_used := model_name
    prompt_hash := prompt_hash
    tokens_used := nt.2
    confidence_level := audit.confidence_level
    typologies_matched := audit.typologies_matched
    data_sources_used := audit.data_sources_used
    rules_matched := audit.rules_matched }

/-! ## Reference corpus retrieval (`RAGService._tfidf_retrieve`,
`RAGService._keyword_retrieve`)

A corpus document, as held by the in-memory index (`rag_service.py:299-314`:
id, content, and the comma-joined tag string inside the metadata). -/
structure Doc where
  id : Str
  content : Str
  tags : Str
deriving DecidableEq

/-- Stable insertion into a weakly-descending list: the new element goes in
front of the first element whose key does not exceed it. -/
def insertDesc {α β : Type} [LinearOrder β] (key : α → β) (x : α) : List α → List α
  | [] => [x]
  | y :: ys => if key y ≤ key x then x :: y :: ys else y :: insertDesc key x ys

/-- Stable descending sort by key; models Python's stable
`list.sort(key=..., reverse=True)`: equal keys keep their original relative
order. -/
def sortDesc {α β : Type} [LinearOrder β] (key : α → β) : List α → List α
  | [] => []
  | x :: xs => insertDesc key x (sortDesc key xs)

/-- The overlap score of `_keyword_retrieve` (`rag_service.py:350-354`): the
number of distinct query words occurring (as substrings, Python `in`) in the
lowered `content + " " + tags` text.  The `set(...)` of query words is
modelled by `dedup`; a set is unordered but the score is a count, so the
dedup order is irrelevant. -/
def kwDocScore (query_words : List Str) (d : Doc) : Nat :=
  query_words.countP
    (fun w => strContains (pyLower (d.content ++ (" ").data ++ d.tags)) w)

/-- The deduplicated, lowered word list `set(query.lower().split())`. -/
def kwQueryWords (query : Str) : List Str := (pyWords (pyLower query)).dedup

/-- `RAGService._keyword_retrieve` (`rag_service.py:348-357`): score every
document by keyword overlap, stable-sort descending, return the first `n`
documents.  The source attaches a constant `"distance": 0.0` to each
returned doc and discards the scores; the returned documents are the model's
value. -/
def keyword_retrieve (query : Str) (docs : List Doc) (n : Nat) : List Doc :=
  let query_words := kwQueryWords query
  let scored := docs.map (fun d => (kwDocScore query_words d, d))
  ((sortDesc Prod.fst scored).take n).map Prod.snd

/-- The overlap score a query gives a document, with the query processed the
way `_keyword_retrieve` processes it. -/
def kwScoreOf (query : Str) (d : Doc) : Nat := kwDocScore (kwQueryWords query) d

/-- The full stable descending ranking `_keyword_retrieve` truncates:
`keyword_retrieve query docs n` is its first `n` entries. -/
def keywordRanking (query : Str) (docs : List Doc) : List Doc :=
  (sortDesc Prod.fst (docs.map (fun d => (kwDocScore (kwQueryWords query) d, d)))).map
    Prod.snd

/-- `RAGService._tfidf_retrieve` (`rag_service.py:333-346`).  The cosine
scores come from scikit-learn, an external library, so the function is
modelled over the `(document, score)` pairs that library produces; scores
are rationals standing for the floating-point similarities.
`np.argsort(scores)[::-1][:n]` is modelled as a descending sort of the pairs
followed by `take n` (numpy's tie order is unspecified; no theorem below
depends on it), and the comprehension keeps only strictly positive scores.
`ok = false` is the `except` branch, which returns the first `n` documents
unscored and unordered. -/
def tfidf_retrieve (ok : Bool) (scored : List (Doc × ℚ)) (n : Nat) : List (Doc × ℚ) :=
  if ok then ((sortDesc Prod.snd scored).take n).filter (fun p => 0 < p.2)
  else scored.take n

/-! ## Alert service (`AlertService.create_alert`) -/

/-- Alert severity enumeration (`database.py:29-33`); `SystemAlert.severity`
is a `SAEnum` column, so an invalid severity string raises `ValueError`
inside `create_alert`'s `try`. -/
inductive AlertSeverity
  | LOW
  | MEDIUM
  | HIGH
  | CRITICAL
deriving DecidableEq

/-- `AlertSeverity(severity)`: the enum constructor; `none` is the
`ValueError` an unknown string raises. -/
def parseSeverity (s : String) : Option AlertSeverity :=
  if s = "LOW" then some .LOW
  else if s = "MEDIUM" then some .MEDIUM
  else if s = "HIGH" then some .HIGH
  else if s = "CRITICAL" then some .CRITICAL
  else none

/-- The fixed alert type → (default severity, title) table
(`alert_service.py:20-34`). -/
def ALERT_TYPES : List (String × String × String) :=
  [("NEW_HIGH_SEVERITY_CASE", "HIGH", "New HIGH Severity Case Requires Review"),
   ("NEW_CRITICAL_CASE", "CRITICAL", "CRITICAL: Immediate SAR Action Required"),
   ("SAR_OVERDUE", "HIGH", "SAR Filing Overdue - Regulatory Deadline Approaching"),
   ("NARRATIVE_GENERATED", "LOW", "SAR Narrative Successfully Generated"),
   ("SAR_APPROVED", "MEDIUM", "SAR Narrative Approved - Ready for Filing"),
   ("SAR_REJECTED", "MEDIUM", "SAR Narrative Rejected - Revision Required"),
   ("SAR_FILED", "LOW", "SAR Successfully Filed with NCA"),
   ("HIGH_RISK_CUSTOMER", "HIGH", "High Risk Customer Activity Detected"),
   ("SANCTIONS_HIT", "CRITICAL", "CRITICAL: Potential Sanctions Match Detected"),
   ("PEP_ACTIVITY", "HIGH", "PEP Customer - Suspicious Activity Flagged"),
   ("MULTIPLE_CASES_SAME_CUSTOMER", "HIGH", "Multiple SAR Cases Opened for Same Customer"),
   ("SYSTEM_ERROR", "CRITICAL", "System Error - Requires Immediate Attention"),
   ("BULK_PROCESSING_COMPLETE", "LOW", "Bulk SAR Processing Batch Completed")]

/-- `ALERT_TYPES.get(alert_type, default)[i]` lookups. -/
def alertTypeDefaultSeverity (alert_type : String) : String :=
  (((ALERT_TYPES.find? (fun p => p.1 == alert_type)).map (fun p => p.2.1)).getD ("MEDIUM"))

/-- `ALERT_TYPES.get(alert_type, ("MEDIUM", alert_type))[1]`: an unknown
alert type falls back to the raw alert-type string as the title. -/
def alertTypeTitle (alert_type : String) : String :=
  (((ALERT_TYPES.find? (fun p => p.1 == alert_type)).map (fun p => p.2.2)).getD alert_type)

/-- A persisted system alert row (`database.py:179-192`). -/
structure SystemAlert where
  alert_type : String
  severity : AlertSeverity
  title : String
  message : String
  case_id : Option String
  customer_id : Option String
  is_read : Bool
  sent_via_email : Bool
deriving DecidableEq

/-! ## Case / version store and audit trail
(`database.py`, `audit_service.py`, `review_approve.py`, `sar_generator_page.py`)

Narrative text in the store is never inspected character-by-character, so
these rows carry Lean `String`s.  Wall-clock timestamps (`datetime.utcnow`)
are modelled as a `now : Nat` supplied to each operation.  Each operation's
own `db.commit()` either succeeds or raises (`commitOk`); the audit-trail
append runs in its own session whose failure `AuditService.log` catches and
swallows (`auditOk`), and likewise `create_alert` (`alertOk`). -/

/-- `CaseStatus` (`database.py:20-26`). -/
inductive CaseStatus
  | OPEN
  | IN_REVIEW
  | APPROVED
  | FILED
  | CLOSED
  | REJECTED
deriving DecidableEq

/-- The case columns the modelled operations read or write
(`database.py:108-142`). -/
structure SARCase where
  status : CaseStatus
  generated_narrative : Option String
  edited_narrative : Option String
  final_narrative : Option String
  narrative_version : Nat
  sar_reference : Option String
  filed_at : Option Nat
  approved_by : Option String
  analyst_notes : Option String
  rejection_reason : Option String
  updated_at : Nat
deriving DecidableEq

/-- An immutable narrative version row (`database.py:145-155`). -/
structure NarrativeVersion where
  case_id : String
  version_number : Nat
  narrative_text : String
  change_type : String
  change_summary : String
  changed_by : Option String
deriving DecidableEq

/-- An audit log row, with the fields the claims are about
(`database.py:158-174`). -/
structure AuditLogEntry where
  action : String
  action_category : String
  case_id : Option String
  user_id : Option Nat
  success : Bool
deriving DecidableEq

/-- The relational store: the case table (an association list keyed by
`case_id`, lookups returning the first match like `query(...).first()`), and
the append-only version, audit and alert tables. -/
structure DB where
  cases : List (String × SARCase)
  versions : List NarrativeVersion
  audit : List AuditLogEntry
  alerts : List SystemAlert
deriving DecidableEq

/-- The empty store. -/
def DB.empty : DB := { cases := [], versions := [], audit := [], alerts := [] }

/-- The fixed action → category mapping (`audit_service.py:17-48`). -/
def ACTION_CATEGORIES : List (String × String) :=
  [("SAR_GENERATION_STARTED", "GENERATION"),
   ("SAR_GENERATION_COMPLETED", "GENERATION"),
   ("SAR_GENERATION_FAILED", "GENERATION"),
   ("NARRATIVE_EDITED", "EDIT"),
   ("NARRATIVE_SAVED", "EDIT"),
   ("SAR_APPROVED", "APPROVAL"),
   ("SAR_REJECTED", "APPROVAL"),
   ("SAR_SUBMITTED", "APPROVAL"),
   ("SAR_FILED", "APPROVAL"),
   ("CASE_VIEWED", "ACCESS"),
   ("CASE_CREATED", "ACCESS"),
   ("CUSTOMER_DATA_ACCESSED", "ACCESS"),
   ("TRANSACTION_DATA_ACCESSED", "ACCESS"),
   ("AUDIT_LOG_VIEWED", "ACCESS"),
   ("USER_LOGIN", "AUTH"),
   ("USER_LOGOUT", "AUTH"),
   ("USER_LOGIN_FAILED", "AUTH"),
   ("USER_CREATED", "AUTH"),
   ("ALERT_TRIGGERED", "ALERT"),
   ("ALERT_ACKNOWLEDGED", "ALERT"),
   ("ALERT_ESCALATED", "ALERT"),
   ("SYSTEM_CONFIG_CHANGED", "SYSTEM"),
   ("DATA_EXPORTED", "SYSTEM")]

/-- `ACTION_CATEGORIES.get(action, "GENERAL")` (`audit_service.py:75`). -/
def actionCategory (action : String) : String :=
  (((ACTION_CATEGORIES.find? (fun p => p.1 == action)).map (fun p => p.2)).getD ("GENERAL"))

/-- `AuditService.log` (`audit_service.py:53-97`): builds an immutable audit
entry and commits it in its own session.  Any persistence failure is caught
inside the method, rolled back (affecting only the audit insert) and
reported as `None` — it never propagates to the caller. -/
def AuditService.log (auditOk : Bool) (action : String) (case_id : Option String)
    (user_id : Option Nat) (db : DB) : DB × Option AuditLogEntry :=
  let entry : AuditLogEntry :=
    { action := action, action_category := actionCategory action,
      case_id := case_id, user_id := user_id, success := true }
  if auditOk then ({ db with audit := db.audit ++ [entry] }, some entry)
  else (db, none)

/-- `AlertService.create_alert` (`alert_service.py:39-79`): default the
severity from the type table when the caller passes none (or an empty,
hence falsy, string), title from the table with the raw type as fallback,
validate the severity string, and commit.  Persistence failure (or the
`ValueError` of an invalid severity) is caught, rolled back and reported as
`None`.  Email dispatch is external and best-effort; `sent_via_email`
records whether it was attempted (`send_email` and HIGH/CRITICAL). -/
def AlertService.create_alert (persistOk : Bool) (alert_type message : String)
    (case_id customer_id : Option String) (severity? : Option String)
    (send_email : Bool) (db : DB) : DB × Option SystemAlert :=
  let severity := match severity? with
    | none => alertTypeDefaultSeverity alert_type
    | some s => if s = "" then alertTypeDefaultSeverity alert_type else s
  let title := alertTypeTitle alert_type
  match parseSeverity severity with
  | none => (db, none)
  | some sev =>
    if persistOk then
      let alert : SystemAlert :=
        { alert_type := alert_type, severity := sev, title := title,
          message := message, case_id := case_id, customer_id := customer_id,
          is_read := false,
          sent_via_email := send_email && (severity = "HIGH" ∨ severity = "CRITICAL") }
      ({ db with alerts := db.alerts ++ [alert] }, some alert)
    else (db, none)

/-- `query(SARCase).filter(case_id == ...).first()`. -/
def findCase (db : DB) (case_id : String) : Option SARCase :=
  (db.cases.find? (fun p => p.1 == case_id)).map (fun p => p.2)

/-- Writing the mutated case object back at commit. -/
def updateCase (cases : List (String × SARCase)) (case_id : String) (c : SARCase) :
    List (String × SARCase) :=
  cases.map (fun p => if p.1 == case_id then (p.1, c) else p)

/-- Python `x or 1` on the integer version counter (`0`/`NULL` is falsy). -/
def pyOrNat (v : Nat) : Nat := if v = 0 then 1 else v

/-- Python `a or b` on optional narrative strings: `None` and `""` are both
falsy and fall through to `b`. -/
def pyOrOpt (a b : Option String) : Option String :=
  match a with
  | some s => if s = "" then b else some s
  | none => b

/-- `save_edited_narrative` (`review_approve.py:39-66`): look the case up (a
missing case returns `False`), set the working text, bump
`narrative_version` (`(v or 1) + 1`), append one EDIT version row, and
commit; a commit failure is rolled back and returns `False`.  Only after a
successful commit is the audit append attempted, whose failure
`AuditService.log` swallows — the call still returns `True`. -/
def save_edited_narrative (commitOk auditOk : Bool) (now : Nat)
    (case_id new_narrative username : String) (user_id : Nat) (db : DB) : DB × Bool :=
  match findCase db case_id with
  | none => (db, false)
  | some c0 =>
    let newVersion := pyOrNat c0.narrative_version + 1
    let c' := { c0 with edited_narrative := some new_narrative,
                        narrative_version := newVersion, updated_at := now }
    let version : NarrativeVersion :=
      { case_id := case_id, version_number := newVersion,
        narrative_text := new_narrative, change_type := "EDIT",
        change_summary := "Edited by analyst " ++ username,
        changed_by := some username }
    if commitOk then
      let db1 := { db with cases := updateCase db.cases case_id c',
                           versions := db.versions ++ [version] }
      let db2 := (AuditService.log auditOk "NARRATIVE_EDITED" (some case_id)
        (some user_id) db1).1
      (db2, true)
    else (db, false)

/-- `approve_case` (`review_approve.py:69-103`): set `final_narrative` to the
edited-or-generated text, status APPROVED, append one APPROVED version row
numbered `(narrative_version or 1) + 1` — the case's own counter is *not*
advanced — and commit; then attempt the audit append and the SAR_APPROVED
alert, whose failures are swallowed by their services. -/
def approve_case (commitOk auditOk alertOk : Bool) (now : Nat)
    (case_id username notes : String) (user_id : Nat) (db : DB) : DB × Bool :=
  match findCase db case_id with
  | none => (db, false)
  | some c0 =>
    let final_text := pyOrOpt c0.edited_narrative c0.generated_narrative
    let c' := { c0 with final_narrative := final_text, status := CaseStatus.APPROVED,
                        approved_by := some username, analyst_notes := some notes,
                        updated_at := now }
    let version : NarrativeVersion :=
      { case_id := case_id, version_number := pyOrNat c0.narrative_version + 1,
        narrative_text := final_text.getD "", change_type := "APPROVED",
        change_summary := "Approved by " ++ username ++ ". Notes: " ++ notes,
        changed_by := some username }
    if commitOk then
      let db1 := { db with cases := updateCase db.cases case_id c',
                           versions := db.versions ++ [version] }
      let db2 := (AuditService.log auditOk "SAR_APPROVED" (some case_id)
        (some user_id) db1).1
      let db3 := (AlertService.create_alert alertOk "SAR_APPROVED"
        ("SAR Case " ++ case_id ++ " has been approved by " ++ username ++
          " and is ready for filing.")
        (some case_id) none none false db2).1
      (db3, true)
    else (db, false)

/-- `reject_case` (`review_approve.py:106-127`): set status REJECTED with the
reason and commit (no version row, and `final_narrative` is not touched);
then attempt the audit append and the SAR_REJECTED alert. -/
def reject_case (commitOk auditOk alertOk : Bool) (now : Nat)
    (case_id username reason : String) (user_id : Nat) (db : DB) : DB × Bool :=
  match findCase db case_id with
  | none => (db, false)
  | some c0 =>
    let c' := { c0 with status := CaseStatus.REJECTED,
                        rejection_reason := some reason, updated_at := now }
    if commitOk then
      let db1 := { db with cases := updateCase db.cases case_id c' }
      let db2 := (AuditService.log auditOk "SAR_REJECTED" (some case_id)
        (some user_id) db1).1
      let db3 := (AlertService.create_alert alertOk "SAR_REJECTED"
        ("SAR Case " ++ case_id ++ " rejected by " ++ username ++ ". Reason: " ++ reason)
        (some case_id) none (some "MEDIUM") false db2).1
      (db3, true)
    else (db, false)

/-- `file_sar` (`review_approve.py:130-155`): set status FILED with the
external reference and filing timestamp and commit (no status precondition
and no version row); then attempt the audit append and the SAR_FILED
alert. -/
def file_sar (commitOk auditOk alertOk : Bool) (now : Nat)
    (case_id username sar_ref : String) (user_id : Nat) (db : DB) : DB × Bool :=
  match findCase db case_id with
  | none => (db, false)
  | some c0 =>
    let c' := { c0 with status := CaseStatus.FILED, sar_reference := some sar_ref,
                        filed_at := some now, updated_at := now }
    if commitOk then
      let db1 := { db with cases := updateCase db.cases case_id c' }
      let db2 := (AuditService.log auditOk "SAR_FILED" (some case_id)
        (some user_id) db1).1
      let db3 := (AlertService.create_alert alertOk "SAR_FILED"
        ("SAR Case " ++ case_id ++ " has been filed with FIU-IND. Reference: " ++ sar_ref)
        (some case_id) none none false db2).1
      (db3, true)
    else (db, false)

/-- `save_case` (`sar_generator_page.py:39-82`): insert a fresh case with
status IN_REVIEW, `narrative_version = 1` and a `version 1` GENERATED
snapshot, in one commit.  A duplicate case id violates the unique key and
the commit raises (rolled back and re-raised in the source), modelled as a
`false` flag with the store unchanged; likewise any other commit failure. -/
def save_case (commitOk : Bool) (now : Nat) (case_id generated_narrative : String)
    (db : DB) : DB × Bool :=
  if (findCase db case_id).isSome then (db, false)
  else if commitOk then
    let c : SARCase :=
      { status := CaseStatus.IN_REVIEW, generated_narrative := some generated_narrative,
        edited_narrative := none, final_narrative := none, narrative_version := 1,
        sar_reference := none, filed_at := none, approved_by := none,
        analyst_notes := none, rejection_reason := none, updated_at := now }
    let v : NarrativeVersion :=
      { case_id := case_id, version_number := 1, narrative_text := generated_narrative,
        change_type := "GENERATED", change_summary := "Initial AI-generated narrative",
        changed_by := none }
    ({ db with cases := db.cases ++ [(case_id, c)], versions := db.versions ++ [v] }, true)
  else (db, false)

/-- One store operation, for reasoning about reachable states: creation,
edit, approval, rejection or filing, each with its persistence outcomes. -/
inductive Op
  | createCase (commitOk : Bool) (now : Nat) (case_id narrative : String)
  | saveEdit (commitOk auditOk : Bool) (now : Nat) (case_id text user : String) (uid : Nat)
  | approve (commitOk auditOk alertOk : Bool) (now : Nat) (case_id user notes : String) (uid : Nat)
  | reject (commitOk auditOk alertOk : Bool) (now : Nat) (case_id user reason : String) (uid : Nat)
  | file (commitOk auditOk alertOk : Bool) (now : Nat) (case_id user ref : String) (uid : Nat)

/-- Apply one operation to the store. -/
def applyOp (db : DB) : Op → DB
  | .createCase ck now cid narr => (save_case ck now cid narr db).1
  | .saveEdit ck ak now cid text user uid =>
      (save_edited_narrative ck ak now cid text user uid db).1
  | .approve ck ak lk now cid user notes uid =>
      (approve_case ck ak lk now cid user notes uid db).1
  | .reject ck ak lk now cid user reason uid =>
      (reject_case ck ak lk now cid user reason uid db).1
  | .file ck ak lk now cid user ref uid =>
      (file_sar ck ak lk now cid user ref uid db).1

/-- Apply a sequence of operations, oldest first. -/
def applyOps (db : DB) (ops : List Op) : DB := ops.foldl applyOp db

/-- The per-case shape of the final-narrative invariant as the code
maintains it: a non-null `final_narrative` implies the status is APPROVED,
FILED or REJECTED. -/
def CaseInv (c : SARCase) : Prop :=
  c.final_narrative ≠ none →
    c.status = CaseStatus.APPROVED ∨ c.status = CaseStatus.FILED ∨
      c.status = CaseStatus.REJECTED

/-- The store-wide invariant: every case row satisfies `CaseInv`. -/
def DBInv (db : DB) : Prop := ∀ p ∈ db.cases, CaseInv p.2

/-! ## Concrete scenario data

The spec's end-to-end scenario: a customer with annual income 85,000 and an
alert totalling 487,500 over 47 transactions, three raw transactions at
9,200 / 9,600 / 9,950. -/

/-- The scenario customer. -/
def sampleCustomer : CustomerData :=
  { full_name := ("Jane Doe").data
    customer_id := ("CUST-001").data
    occupation := ("Trader").data
    risk_rating := ("MEDIUM").data
    kyc_status := ("VERIFIED").data
    pep_status := false
    annual_income := 85000 }

/-- The scenario alert. -/
def sampleAlert : AlertData :=
  { alert_type := ("STRUCTURING").data
    total_amount := 487500
    transaction_count := 47
    date_range_start := ("2024-01-01").data
    date_range_end := ("2024-02-01").data
    jurisdictions_involved := []
    counterparties := []
    triggering_factors := [] }

/-- The scenario transactions. -/
def sampleTxns : List Txn := [⟨9200⟩, ⟨9600⟩, ⟨9950⟩]

/-- The scenario alert with an alert type that itself contains the trailer
header line, which confuses the trailer split of
`_parse_audit_from_narrative`. -/
def adversarialAlert : AlertData :=
  { sampleAlert with alert_type := ("### AUDIT TRAIL - REASONING LOG").data }

/-- `fbBody sampleCustomer sampleAlert`, first half (through the PEP status
line), spelled out for chunked no-occurrence checks. -/
def sampleBody1 : Str :=
  fbHead ++ ("Jane Doe").data ++ (" (Customer ID: ").data ++ ("CUST-001").data ++
  (") \nfollowing detection of ").data ++ ("STRUCTURING").data ++
  (" activity. During the reporting period \n").data ++ ("2024-01-01").data ++
  (" to ").data ++ ("2024-02-01").data ++ (", transactions totalling £").data ++
  fmtMoney2 487500 ++ (" across ").data ++ natStr 47 ++
  (" transactions \nwere identified as potentially suspicious.\n\n---\n\n### 2. SUBJECT INFORMATION\n- **Full Name:** ").data ++
  ("Jane Doe").data ++ ("\n- **Customer ID:** ").data ++ ("CUST-001").data ++
  ("\n- **Occupation:** ").data ++ ("Trader").data ++
  ("\n- **Risk Rating:** ").data ++ ("MEDIUM").data ++
  ("\n- **KYC Status:** ").data ++ ("VERIFIED").data ++
  ("\n- **PEP Status:** ").data ++ ("NO").data

/-- `fbBody sampleCustomer sampleAlert`, second half (section 3 onward). -/
def sampleBody2 : Str :=
  ("\n\n---\n\n### 3. DESCRIPTION OF SUSPICIOUS ACTIVITY\nThe account was flagged for ").data ++
  ("STRUCTURING").data ++ (" during the period ").data ++ ("2024-01-01").data ++
  (" to ").data ++ ("2024-02-01").data ++
  (". \nThe total value of transactions under review amounts to £").data ++
  fmtMoney2 487500 ++ (" across ").data ++ natStr 47 ++
  (" individual \ntransactions. This activity appears inconsistent with the customer's stated profile.\n\n---\n\n### 4. TIMELINE OF EVENTS\nSee attached transaction data for full chronological record.\n\n---\n\n### 5. TYPOLOGY MATCH\nBased on available data, this activity may match: suspicious transaction patterns.\n\n---\n\n### 6. REGULATORY BASIS FOR FILING\nThis SAR is filed pursuant to the Proceeds of Crime Act 2002 (POCA), sections 330-332.\n\n---\n\n### 7. CONCLUSION\nRecommend human analyst review and completion of this narrative. LLM generation was unavailable.\n\n---\n\n").data

/-- The adversarial fallback narrative up to the first (injected) header
occurrence. -/
def advPrefix : Str :=
  fbHead ++ ("Jane Doe").data ++ (" (Customer ID: ").data ++ ("CUST-001").data ++
  (") \nfollowing detection of ").data

/-- The adversarial fallback narrative between its first and second
(injected) header occurrences. -/
def advMid : Str :=
  (" activity. During the reporting period \n").data ++ ("2024-01-01").data ++
  (" to ").data ++ ("2024-02-01").data ++ (", transactions totalling £").data ++
  fmtMoney2 487500 ++ (" across ").data ++ natStr 47 ++
  (" transactions \nwere identified as potentially suspicious.\n\n---\n\n### 2. SUBJECT INFORMATION\n- **Full Name:** ").data ++
  ("Jane Doe").data ++ ("\n- **Customer ID:** ").data ++ ("CUST-001").data ++
  ("\n- **Occupation:** ").data ++ ("Trader").data ++
  ("\n- **Risk Rating:** ").data ++ ("MEDIUM").data ++
  ("\n- **KYC Status:** ").data ++ ("VERIFIED").data ++
  ("\n- **PEP Status:** ").data ++ ("NO").data ++
  ("\n\n---\n\n### 3. DESCRIPTION OF SUSPICIOUS ACTIVITY\nThe account was flagged for ").data

/-- A narrative carrying a well-formed audit trailer with three bulleted
data-source lines and two bulleted typology lines. -/
def wellFormedNarrative : Str :=
  ("Report body.\n\n### AUDIT TRAIL - REASONING LOG\nDATA SOURCES USED:\n- Customer KYC profile\n- Transaction alert data\n- Reference corpus\n\nRULES/TYPOLOGIES MATCHED:\n- Structuring\n- Layering\n\nCONFIDENCE ASSESSMENT:\n- Overall suspicion confidence: HIGH\n\nLIMITATIONS AND CAVEATS:\n- None noted\n").data

/-- The adversarial fallback narrative after its second (injected) header
occurrence: the rest of the body, the real header and the trailer. -/
def advRest : Str :=
  (" during the period ").data ++ ("2024-01-01").data ++ (" to ").data ++
  ("2024-02-01").data ++
  (". \nThe total value of transactions under review amounts to £").data ++
  fmtMoney2 487500 ++ (" across ").data ++ natStr 47 ++
  (" individual \ntransactions. This activity appears inconsistent with the customer's stated profile.\n\n---\n\n### 4. TIMELINE OF EVENTS\nSee attached transaction data for full chronological record.\n\n---\n\n### 5. TYPOLOGY MATCH\nBased on available data, this activity may match: suspicious transaction patterns.\n\n---\n\n### 6. REGULATORY BASIS FOR FILING\nThis SAR is filed pursuant to the Proceeds of Crime Act 2002 (POCA), sections 330-332.\n\n---\n\n### 7. CONCLUSION\nRecommend human analyst review and completion of this narrative. LLM generation was unavailable.\n\n---\n\n").data ++
  (auditHeader ++ fbTrailer sampleCustomer adversarialAlert)

/-- A GENERATED version-1 snapshot row for the sample case. -/
def genVersion : NarrativeVersion :=
  { case_id := "SAR-1", version_number := 1, narrative_text := "gen",
    change_type := "GENERATED", change_summary := "Initial AI-generated narrative",
    changed_by := none }

/-- A freshly generated case still open for review. -/
def openCase : SARCase :=
  { status := CaseStatus.OPEN, generated_narrative := some "gen",
    edited_narrative := none, final_narrative := none, narrative_version := 1,
    sar_reference := none, filed_at := none, approved_by := none,
    analyst_notes := none, rejection_reason := none, updated_at := 0 }

/-- A store holding one open case and its generated snapshot. -/
def openDB : DB :=
  { cases := [("SAR-1", openCase)], versions := [genVersion], audit := [], alerts := [] }

/-- An approved case, final narrative set. -/
def approvedCase : SARCase :=
  { status := CaseStatus.APPROVED, generated_narrative := some "gen",
    edited_narrative := some "edit", final_narrative := some "edit",
    narrative_version := 2, sar_reference := none, filed_at := none,
    approved_by := some "bob", analyst_notes := some "ok",
    rejection_reason := none, updated_at := 0 }

/-- A store holding one approved case. -/
def approvedDB : DB :=
  { cases := [("SAR-2", approvedCase)], versions := [], audit := [], alerts := [] }

/-! # Theorems

First a toolkit about the modelled Python string operations, then the
claims. -/

/-- `strContains` agrees with list-infix containment. -/
theorem strContains_infix_iff {s pat : Str} : strContains s pat = true ↔ pat <:+: s := by
  induction s with
  | nil => simp [strContains, strContainsAux, List.isPrefixOf_iff_prefix]
  | cons c rest ih =>
    simp only [strContains, strContainsAux, Bool.or_eq_true,
      List.isPrefixOf_iff_prefix] at *
    rw [List.infix_cons_iff]
    exact or_congr Iff.rfl ih

/-- Infix occurrences are prefixes of some tail. -/
theorem infix_iff_prefix_drop {p s : Str} : p <:+: s ↔ ∃ i, p <+: s.drop i := by
  constructor
  · rintro ⟨u, v, rfl⟩
    refine ⟨u.length, ?_⟩
    rw [List.append_assoc, List.drop_left]
    exact List.prefix_append p v
  · rintro ⟨i, h⟩
    exact h.isInfix.trans (List.drop_suffix i s).isInfix

/-- A prefix of `u ++ v` that fits inside `u` plus `m` characters is already
a prefix of `u ++ v.take m`. -/
theorem prefix_append_take {p u v : Str} (m : Nat) (h : p <+: u ++ v)
    (hl : p.length ≤ u.length + m) : p <+: u ++ v.take m := by
  rw [List.prefix_iff_eq_take, List.take_append_eq_append_take] at h
  by_cases hu : p.length ≤ u.length
  · rw [Nat.sub_eq_zero_of_le hu] at h
    simp only [List.take_zero, List.append_nil] at h
    rw [h]
    exact (List.take_prefix _ _).trans (List.prefix_append u (v.take m))
  · push_neg at hu
    rw [List.take_of_length_le (Nat.le_of_lt hu)] at h
    have heq : v.take (p.length - u.length) = (v.take m).take (p.length - u.length) := by
      rw [List.take_take]
      congr 1
      omega
    rw [heq] at h
    rw [h]
    exact (List.prefix_append_right_inj u).mpr (List.take_prefix _ _)

/-- An occurrence that is a prefix of `x.drop i ++ w` is an infix of
`x ++ w`. -/
theorem infix_of_prefix_drop_append {sep x w : Str} {i : Nat}
    (h : sep <+: x.drop i ++ w) : sep <:+: x ++ w := by
  have hsuf : x.drop i ++ w <:+ x ++ w := by
    conv_rhs => rw [← List.take_append_drop i x, List.append_assoc]
    exact List.suffix_append _ _
  exact h.isInfix.trans hsuf.isInfix

/-- If `sep` does not occur in the window `x ++ rest.take (sep.length - 1)`
then no occurrence of `sep` in `x ++ rest` starts inside `x`. -/
theorem noOcc_of_not_window {sep x rest : Str}
    (h : ¬ sep <:+: (x ++ rest.take (sep.length - 1))) :
    ∀ i < x.length, ¬ sep.isPrefixOf ((x ++ rest).drop i) = true := by
  intro i hi hpre
  apply h
  rw [List.isPrefixOf_iff_prefix] at hpre
  rw [List.drop_append_of_le_length (Nat.le_of_lt hi)] at hpre
  have h2 : sep <+: x.drop i ++ rest.take (sep.length - 1) := by
    refine prefix_append_take _ hpre ?_
    have h1 : 1 ≤ x.length - i := by omega
    rw [List.length_drop]
    omega
  exact infix_of_prefix_drop_append h2

/-- An occurrence of `sep` in `x ++ y` lies in the boundary window
`x ++ y.take (sep.length - 1)` or wholly inside `y`. -/
theorem infix_append_split {sep x y : Str} (h : sep <:+: x ++ y) :
    sep <:+: (x ++ y.take (sep.length - 1)) ∨ sep <:+: y := by
  rcases infix_iff_prefix_drop.mp h with ⟨i, hp⟩
  by_cases hix : i < x.length
  · left
    rw [List.drop_append_of_le_length (Nat.le_of_lt hix)] at hp
    refine infix_of_prefix_drop_append (prefix_append_take _ hp ?_)
    have h1 : 1 ≤ x.length - i := by omega
    rw [List.length_drop]
    omega
  · right
    push_neg at hix
    rw [List.drop_append_eq_append_drop, List.drop_eq_nil_of_le hix,
      List.nil_append] at hp
    exact hp.isInfix.trans (List.drop_suffix _ _).isInfix

/-- Chunked refutation of containment: no occurrence in the boundary window
and none in the tail means none at all. -/
theorem not_contains_append_chunk {sep x y : Str}
    (h1 : strContains (x ++ y.take (sep.length - 1)) sep = false)
    (h2 : strContains y sep = false) : ¬ sep <:+: x ++ y := by
  intro h
  rcases infix_append_split h with h' | h'
  · rw [← strContains_infix_iff] at h'
    rw [h1] at h'
    exact Bool.false_ne_true h'
  · rw [← strContains_infix_iff] at h'
    rw [h2] at h'
    exact Bool.false_ne_true h'

/-- With enough fuel, `pySplitOnAux` does not depend on the exact amount. -/
theorem pySplitOnAux_fuel_irrel {sep : Str} (hsep : sep ≠ []) :
    ∀ (f g : Nat) (s acc : Str), s.length < f → s.length < g →
      pySplitOnAux sep f s acc = pySplitOnAux sep g s acc := by
  intro f
  induction f with
  | zero => intro g s acc hf _; omega
  | succ f ih =>
    intro g s acc hf hg
    cases g with
    | zero => omega
    | succ g =>
      cases s with
      | nil => rfl
      | cons c rest =>
        simp only [pySplitOnAux]
        have hseplen : 0 < sep.length := List.length_pos.mpr hsep
        by_cases hp : sep.isPrefixOf (c :: rest) = true
        · rw [if_pos hp, if_pos hp]
          have hlen : (List.drop sep.length (c :: rest)).length < f ∧
              (List.drop sep.length (c :: rest)).length < g := by
            simp only [List.length_drop, List.length_cons]
            simp only [List.length_cons] at hf hg
            omega
          rw [ih g _ [] hlen.1 hlen.2]
        · rw [if_neg hp, if_neg hp]
          have hlen : rest.length < f ∧ rest.length < g := by
            simp only [List.length_cons] at hf hg
            omega
          rw [ih g rest (c :: acc) hlen.1 hlen.2]

/-- `pySplitOnAux` walks over a chunk containing no occurrence of the
separator, moving it onto the accumulator. -/
theorem pySplitOnAux_walk {sep : Str} :
    ∀ (x t acc : Str) (f : Nat), x.length ≤ f →
      (∀ i < x.length, ¬ sep.isPrefixOf ((x ++ t).drop i) = true) →
      pySplitOnAux sep f (x ++ t) acc =
        pySplitOnAux sep (f - x.length) t (x.reverse ++ acc) := by
  intro x
  induction x with
  | nil => intro t acc f _ _; simp
  | cons c x' ih =>
    intro t acc f hf hno
    cases f with
    | zero => simp at hf
    | succ f =>
      have h0 : ¬ sep.isPrefixOf (c :: (x' ++ t)) = true := by
        have := hno 0 (by simp)
        simpa using this
      simp only [List.cons_append, pySplitOnAux, List.append_eq]
      rw [if_neg h0]
      have hno' : ∀ i < x'.length, ¬ sep.isPrefixOf ((x' ++ t).drop i) = true := by
        intro i hi
        have := hno (i + 1) (by simp; omega)
        simpa using this
      rw [ih t (c :: acc) f (by simpa using Nat.succ_le_succ_iff.mp (by simpa using hf)) hno']
      simp [List.reverse_cons, List.append_assoc]

/-- Python `split` peels off the chunk before the first separator occurrence
when no occurrence starts inside that chunk. -/
theorem pySplitOn_cons_of_noOcc {sep x y : Str} (hsep : sep ≠ [])
    (hno : ∀ i < x.length, ¬ sep.isPrefixOf ((x ++ (sep ++ y)).drop i) = true) :
    pySplitOn sep (x ++ (sep ++ y)) = x :: pySplitOn sep y := by
  have hseplen : 0 < sep.length := List.length_pos.mpr hsep
  conv_lhs => rw [pySplitOn, if_neg hsep]
  rw [pySplitOnAux_walk x (sep ++ y) [] _ (by simp [List.length_append]; omega) hno]
  have hfuel : (x ++ (sep ++ y)).length + 1 - x.length = sep.length + y.length + 1 := by
    simp only [List.length_append]
    omega
  rw [hfuel]
  obtain ⟨c, sep', rfl⟩ : ∃ c sep', sep = c :: sep' := by
    cases sep with
    | nil => exact absurd rfl hsep
    | cons c sep' => exact ⟨c, sep', rfl⟩
  have hpre : (c :: sep').isPrefixOf ((c :: sep') ++ y) = true :=
    List.isPrefixOf_iff_prefix.mpr (List.prefix_append _ _)
  simp only [List.length_cons, List.cons_append, Nat.succ_add, pySplitOnAux, List.append_eq]
  rw [if_pos (by simpa using hpre)]
  have hdrop : List.drop (c :: sep').length (c :: (sep' ++ y)) = y := by
    simpa using List.drop_left (c :: sep') y
  simp only [List.length_cons] at hdrop
  rw [hdrop]
  rw [pySplitOnAux_fuel_irrel hsep _ (y.length + 1) y [] (by omega) (by omega)]
  conv_rhs => rw [pySplitOn, if_neg hsep]
  simp

/-- Python `split` on text with no separator occurrence returns the text as
the single chunk. -/
theorem pySplitOn_single_of_noOcc {sep y : Str} (hsep : sep ≠ [])
    (h : ¬ sep <:+: y) : pySplitOn sep y = [y] := by
  have hno : ∀ i < y.length, ¬ sep.isPrefixOf ((y ++ ([] : Str)).drop i) = true := by
    intro i hi hp
    apply h
    rw [List.append_nil] at hp
    rw [List.isPrefixOf_iff_prefix] at hp
    exact infix_iff_prefix_drop.mpr ⟨i, hp⟩
  have hy : (y : Str) = y ++ [] := (List.append_nil y).symm
  conv_lhs => rw [pySplitOn, if_neg hsep, hy]
  rw [pySplitOnAux_walk y [] [] ((y ++ ([] : Str)).length + 1) (by simp) hno]
  have : (y ++ ([] : Str)).length + 1 - y.length = 1 := by simp
  rw [this]
  simp [pySplitOnAux]

/-- Boolean non-containment gives propositional non-containment. -/
theorem not_infix_of_contains_false {s pat : Str} (h : strContains s pat = false) :
    ¬ pat <:+: s := by
  intro hinf
  rw [← strContains_infix_iff] at hinf
  rw [h] at hinf
  exact Bool.false_ne_true hinf

/-! ## The template fallback and its trailer parse (claim C6 groundwork) -/

/-- The header line is not the empty string. -/
theorem auditHeader_ne_nil : auditHeader ≠ [] := by decide

/-- `replace('_', ' ')` on the benign scenario alert type is the identity. -/
theorem replace_sample_alert_type :
    pyReplaceChar (("STRUCTURING").data) '_' ' ' = ("STRUCTURING").data := by decide

/-- `replace('_', ' ')` on the adversarial alert type leaves the injected
header line intact (it contains no underscore). -/
theorem replace_adv_alert_type :
    pyReplaceChar (("### AUDIT TRAIL - REASONING LOG").data) '_' ' ' = auditHeader := by
  decide

/-- The `PEP Status` interpolation for the scenario customer. -/
theorem sample_pep_if :
    (if (false : Bool) = true then (("YES").data : Str) else ("NO").data) = ("NO").data := rfl

set_option maxRecDepth 40000 in
/-- The benign fallback body is the two spelled-out chunks. -/
theorem sampleBody_split :
    fbBody sampleCustomer sampleAlert = sampleBody1 ++ sampleBody2 := by
  simp only [fbBody, sampleCustomer, sampleAlert]
  rw [replace_sample_alert_type]
  simp only [sampleBody1, sampleBody2, List.append_assoc]
  rfl

set_option maxRecDepth 40000 in
set_option maxHeartbeats 1600000 in
/-- The header does not occur in the benign fallback body, even overlapping
into the text that follows it. -/
theorem sampleBody_window :
    ¬ auditHeader <:+: (fbBody sampleCustomer sampleAlert ++
      (auditHeader ++ fbTrailer sampleCustomer sampleAlert).take (auditHeader.length - 1)) := by
  rw [sampleBody_split, List.append_assoc]
  exact not_contains_append_chunk (by decide) (by decide)

/-- Splitting the benign fallback on the header peels off exactly the body. -/
theorem sampleSplit :
    pySplitOn auditHeader (generate_template_fallback sampleCustomer sampleAlert) =
      fbBody sampleCustomer sampleAlert ::
        pySplitOn auditHeader (fbTrailer sampleCustomer sampleAlert) := by
  rw [generate_template_fallback, List.append_assoc]
  exact pySplitOn_cons_of_noOcc auditHeader_ne_nil
    (noOcc_of_not_window sampleBody_window)

set_option maxRecDepth 40000 in
set_option maxHeartbeats 1600000 in
/-- The header does not recur inside the benign trailer. -/
theorem sampleTrailer_contains :
    strContains (fbTrailer sampleCustomer sampleAlert) auditHeader = false := by decide

/-- The benign trailer is a single split chunk. -/
theorem sampleTrailerSplit :
    pySplitOn auditHeader (fbTrailer sampleCustomer sampleAlert) =
      [fbTrailer sampleCustomer sampleAlert] :=
  pySplitOn_single_of_noOcc auditHeader_ne_nil
    (not_infix_of_contains_false sampleTrailer_contains)

set_option maxRecDepth 4000 in
/-- Every fallback narrative contains the short audit marker, whatever the
input data: the marker sits inside the fixed header segment. -/
theorem fallback_contains_marker (c : CustomerData) (a : AlertData) :
    strContains (generate_template_fallback c a) auditMarker = true := by
  rw [strContains_infix_iff]
  have h1 : auditMarker <:+: auditHeader := by decide
  refine h1.trans ⟨fbBody c a, fbTrailer c a, ?_⟩
  rw [generate_template_fallback]

set_option maxRecDepth 8000 in
/-- Every fallback narrative contains the literal `LLM UNAVAILABLE` marker,
whatever the input data: it sits inside the fixed opening segment. -/
theorem fallback_contains_llm_unavailable (c : CustomerData) (a : AlertData) :
    strContains (generate_template_fallback c a) (("LLM UNAVAILABLE").data) = true := by
  rw [strContains_infix_iff]
  have h1 : ("LLM UNAVAILABLE").data <:+: fbHead := by decide
  refine h1.trans ?_
  have h2 : fbHead <+: fbBody c a := by
    rw [fbBody]
    simp only [List.append_assoc]
    exact List.prefix_append _ _
  have h3 : fbBody c a <+: generate_template_fallback c a := by
    rw [generate_template_fallback]
    exact (List.prefix_append _ _).trans (List.prefix_append _ _)
  exact (h2.trans h3).isInfix

set_option maxRecDepth 40000 in
set_option maxHeartbeats 4000000 in
/-- Folding the parser over the benign trailer yields the LOW-confidence
audit record with the human-review limitations. -/
theorem parse_sample_fallback :
    parse_audit_from_narrative (generate_template_fallback sampleCustomer sampleAlert) =
      { data_sources_used :=
          [("Customer KYC profile (customer_id: CUST-001)").data,
           ("Transaction alert data (alert_type: STRUCTURING)").data,
           ("Template-based fallback (LLM unavailable)").data]
        typologies_matched := [("STRUCTURING pattern detected").data]
        confidence_level := ("LOW").data
        key_factors :=
          [("Key factors driving the assessment: LLM unavailable, requires human review").data]
        limitations :=
          [("This narrative was generated using a template fallback; LLM was not available").data,
           ("Human analyst MUST review and complete this narrative before submission").data]
        rules_matched := [("STRUCTURING pattern detected").data] } := by
  rw [parse_audit_from_narrative]
  rw [fallback_contains_marker]
  rw [if_pos rfl]
  rw [sampleSplit, sampleTrailerSplit]
  simp only [List.get?]
  decide

set_option maxRecDepth 40000 in
/-- The adversarial fallback regrouped around the two header occurrences the
injected alert type creates before the real trailer. -/
theorem adv_fallback_split :
    generate_template_fallback sampleCustomer adversarialAlert =
      advPrefix ++ (auditHeader ++ (advMid ++ (auditHeader ++ advRest))) := by
  simp only [generate_template_fallback, fbBody, sampleCustomer, adversarialAlert,
    sampleAlert]
  rw [replace_adv_alert_type]
  simp only [advPrefix, advMid, advRest, List.append_assoc]
  rfl

set_option maxRecDepth 40000 in
set_option maxHeartbeats 1600000 in
/-- The first injected header occurrence splits off `advPrefix`. -/
theorem advSplit1 :
    pySplitOn auditHeader
        (advPrefix ++ (auditHeader ++ (advMid ++ (auditHeader ++ advRest)))) =
      advPrefix :: pySplitOn auditHeader (advMid ++ (auditHeader ++ advRest)) :=
  pySplitOn_cons_of_noOcc auditHeader_ne_nil (noOcc_of_not_window (by decide))

set_option maxRecDepth 40000 in
set_option maxHeartbeats 1600000 in
/-- The second injected header occurrence splits off `advMid`. -/
theorem advSplit2 :
    pySplitOn auditHeader (advMid ++ (auditHeader ++ advRest)) =
      advMid :: pySplitOn auditHeader advRest :=
  pySplitOn_cons_of_noOcc auditHeader_ne_nil (noOcc_of_not_window (by decide))

set_option maxRecDepth 40000 in
set_option maxHeartbeats 4000000 in
/-- On the adversarial input the extractor parses the text between the two
injected occurrences, finds no recognised section, and returns the untouched
defaults: MEDIUM confidence and empty lists. -/
theorem parse_adv_fallback :
    parse_audit_from_narrative (generate_template_fallback sampleCustomer adversarialAlert) =
      defaultAudit := by
  rw [parse_audit_from_narrative]
  rw [fallback_contains_marker]
  rw [if_pos rfl]
  rw [adv_fallback_split, advSplit1, advSplit2]
  simp only [List.get?]
  decide

/-- `generate_narrative` on a raising backend, unfolded. -/
theorem generate_narrative_fallback_eq (m h : Str) (c : CustomerData) (a : AlertData)
    (t : List Txn) :
    generate_narrative none m h c a t =
      { narrative := generate_template_fallback c a
        audit_trail := parse_audit_from_narrative (generate_template_fallback c a)
        risk_indicators_extracted := extract_risk_indicators c a t
        model_used := m
        prompt_hash := h
        tokens_used := none
        confidence_level :=
          (parse_audit_from_narrative (generate_template_fallback c a)).confidence_level
        typologies_matched :=
          (parse_audit_from_narrative (generate_template_fallback c a)).typologies_matched
        data_sources_used :=
          (parse_audit_from_narrative (generate_template_fallback c a)).data_sources_used
        rules_matched :=
          (parse_audit_from_narrative (generate_template_fallback c a)).rules_matched } := rfl

/-! ## Claim theorems for the generator and extractor -/

set_option maxRecDepth 40000 in
set_option maxHeartbeats 1600000 in
/-- C6 (corrected): whenever the backend call raises, `generate_narrative`
still returns a `GenerationResult` built through the same trailer parse and
result shape as a true generation, and its narrative always carries the
literal `LLM UNAVAILABLE` marker; for inputs that do not themselves embed
the audit-trailer header — as in the representative scenario — the
confidence is forced LOW, with the explicit human-review limitation in the
structured trailer fields.  (The original claim's universal LOW-confidence
clause fails for inputs embedding the header; see the counterexample.) -/
theorem C6_fallback_generation :
    (∀ (m h : Str) (c : CustomerData) (a : AlertData) (t : List Txn),
      generate_narrative none m h c a t =
        { narrative := generate_template_fallback c a
          audit_trail := parse_audit_from_narrative (generate_template_fallback c a)
          risk_indicators_extracted := extract_risk_indicators c a t
          model_used := m
          prompt_hash := h
          tokens_used := none
          confidence_level :=
            (parse_audit_from_narrative (generate_template_fallback c a)).confidence_level
          typologies_matched :=
            (parse_audit_from_narrative (generate_template_fallback c a)).typologies_matched
          data_sources_used :=
            (parse_audit_from_narrative (generate_template_fallback c a)).data_sources_used
          rules_matched :=
            (parse_audit_from_narrative (generate_template_fallback c a)).rules_matched } ∧
      strContains (generate_template_fallback c a) (("LLM UNAVAILABLE").data) = true) ∧
    generate_narrative none (("model").data) (("hash").data)
        sampleCustomer sampleAlert sampleTxns =
      { narrative := generate_template_fallback sampleCustomer sampleAlert
        audit_trail :=
          { data_sources_used :=
              [("Customer KYC profile (customer_id: CUST-001)").data,
               ("Transaction alert data (alert_type: STRUCTURING)").data,
               ("Template-based fallback (LLM unavailable)").data]
            typologies_matched := [("STRUCTURING pattern detected").data]
            confidence_level := ("LOW").data
            key_factors :=
              [("Key factors driving the assessment: LLM unavailable, requires human review").data]
            limitations :=
              [("This narrative was generated using a template fallback; LLM was not available").data,
               ("Human analyst MUST review and complete this narrative before submission").data]
            rules_matched := [("STRUCTURING pattern detected").data] }
        risk_indicators_extracted :=
          extract_risk_indicators sampleCustomer sampleAlert sampleTxns
        model_used := ("model").data
        prompt_hash := ("hash").data
        tokens_used := none
        confidence_level := ("LOW").data
        typologies_matched := [("STRUCTURING pattern detected").data]
        data_sources_used :=
          [("Customer KYC profile (customer_id: CUST-001)").data,
           ("Transaction alert data (alert_type: STRUCTURING)").data,
           ("Template-based fallback (LLM unavailable)").data]
        rules_matched := [("STRUCTURING pattern detected").data] } := by
  refine ⟨fun m h c a t =>
    ⟨generate_narrative_fallback_eq m h c a t, fallback_contains_llm_unavailable c a⟩, ?_⟩
  rw [generate_narrative_fallback_eq, parse_sample_fallback]

set_option maxRecDepth 40000 in
set_option maxHeartbeats 1600000 in
/-- C6 counterexample: for the concrete input whose alert type embeds the
audit-trailer header line, the backend-failure path returns MEDIUM
confidence and empty limitation and typology lists — not the claimed LOW
with a human-review limitation. -/
theorem C6_counterexample :
    generate_narrative none (("model").data) (("hash").data)
        sampleCustomer adversarialAlert sampleTxns =
      { narrative := generate_template_fallback sampleCustomer adversarialAlert
        audit_trail := defaultAudit
        risk_indicators_extracted :=
          extract_risk_indicators sampleCustomer adversarialAlert sampleTxns
        model_used := ("model").data
        prompt_hash := ("hash").data
        tokens_used := none
        confidence_level := ("MEDIUM").data
        typologies_matched := []
        data_sources_used := []
        rules_matched := [] } ∧
    ¬ ("MEDIUM").data = (("LOW").data : Str) := by
  refine ⟨?_, by decide⟩
  rw [generate_narrative_fallback_eq, parse_adv_fallback]
  rfl

set_option maxRecDepth 40000 in
set_option maxHeartbeats 1600000 in
/-- C7 (confirmed): the reasoning extractor is a total function — no input
raises; text without the audit-trailer marker yields the defaults (MEDIUM
confidence, empty source and typology lists), and the well-formed trailer
with three bulleted data sources and two bulleted typologies yields exactly
those items in original order. -/
theorem C7_reasoning_extractor :
    (∀ narrative : Str, strContains narrative auditMarker = false →
      parse_audit_from_narrative narrative = defaultAudit) ∧
    (parse_audit_from_narrative wellFormedNarrative).data_sources_used =
      [("Customer KYC profile").data, ("Transaction alert data").data,
       ("Reference corpus").data] ∧
    (parse_audit_from_narrative wellFormedNarrative).typologies_matched =
      [("Structuring").data, ("Layering").data] ∧
    defaultAudit.confidence_level = ("MEDIUM").data ∧
    defaultAudit.data_sources_used = [] ∧
    defaultAudit.typologies_matched = [] := by
  refine ⟨fun narrative h => ?_, ?_, ?_, rfl, rfl, rfl⟩
  · rw [parse_audit_from_narrative, h]
    rfl
  · decide
  · decide

/-- C7 witness: the first clause applied at a concrete marker-free text. -/
theorem C7_witness :
    parse_audit_from_narrative (("No trailer in this text.").data) = defaultAudit :=
  C7_reasoning_extractor.1 (("No trailer in this text.").data) (by decide)

set_option maxRecDepth 40000 in
set_option maxHeartbeats 1600000 in
/-- C9 (confirmed): on the scenario input (income 85,000; alert total
487,500 over 47 transactions; raw transactions 9,200 / 9,600 / 9,950) the
extractor fires, in rule-declaration order, the high-value rule (487,500
exceeds the 10,000 threshold), the high-frequency rule (47 exceeds 10), the
structuring rule citing the 3 matching transactions, and the income
disparity rule — and nothing else. -/
theorem C9_risk_indicators :
    extract_risk_indicators sampleCustomer sampleAlert sampleTxns =
      [("HIGH VALUE: Total transactions of £487,500.00 exceed £10,000 threshold").data,
       ("HIGH FREQUENCY: 47 transactions detected in monitoring window").data,
       ("STRUCTURING SUSPECTED: 3 transactions near but below £10,000 reporting threshold").data,
       ("INCOME DISPARITY: Transaction volume (£487,500) exceeds 2x stated annual income (£85,000)").data] := by
  decide

/-! ## Retrieval ordering (claim C8 groundwork) -/

/-- Inserting adds one element. -/
theorem insertDesc_length {α β : Type} [LinearOrder β] (key : α → β) (x : α) (l : List α) :
    (insertDesc key x l).length = l.length + 1 := by
  induction l with
  | nil => rfl
  | cons y ys ih =>
    simp only [insertDesc]
    split
    · simp
    · simp [ih]

/-- Inserting permutes pushing the element to the front. -/
theorem insertDesc_perm {α β : Type} [LinearOrder β] (key : α → β) (x : α) (l : List α) :
    (insertDesc key x l).Perm (x :: l) := by
  induction l with
  | nil => exact List.Perm.refl _
  | cons y ys ih =>
    simp only [insertDesc]
    split
    · exact List.Perm.refl _
    · exact (ih.cons y).trans (List.Perm.swap x y ys)

/-- The stable descending sort permutes its input. -/
theorem sortDesc_perm {α β : Type} [LinearOrder β] (key : α → β) (l : List α) :
    (sortDesc key l).Perm l := by
  induction l with
  | nil => exact List.Perm.refl _
  | cons x xs ih => exact (insertDesc_perm key x (sortDesc key xs)).trans (ih.cons x)

/-- Inserting into a weakly descending list keeps it weakly descending. -/
theorem insertDesc_pairwise {α β : Type} [LinearOrder β] (key : α → β) (x : α)
    {l : List α} (h : l.Pairwise (fun a b => key b ≤ key a)) :
    (insertDesc key x l).Pairwise (fun a b => key b ≤ key a) := by
  induction l with
  | nil => simp [insertDesc]
  | cons y ys ih =>
    rcases List.pairwise_cons.mp h with ⟨hy, hys⟩
    by_cases hcond : key y ≤ key x
    · simp only [insertDesc, if_pos hcond]
      refine List.pairwise_cons.mpr ⟨?_, h⟩
      intro z hz
      rcases List.mem_cons.mp hz with rfl | hz'
      · exact hcond
      · exact (hy z hz').trans hcond
    · simp only [insertDesc, if_neg hcond]
      refine List.pairwise_cons.mpr ⟨?_, ih hys⟩
      intro z hz
      rcases List.mem_cons.mp ((insertDesc_perm key x ys).mem_iff.mp hz) with rfl | hz'
      · exact le_of_not_le hcond
      · exact hy z hz'

/-- The stable descending sort produces weakly descending keys. -/
theorem sortDesc_pairwise {α β : Type} [LinearOrder β] (key : α → β) (l : List α) :
    (sortDesc key l).Pairwise (fun a b => key b ≤ key a) := by
  induction l with
  | nil => simp [sortDesc]
  | cons x xs ih => exact insertDesc_pairwise key x ih

/-- Stability of insertion: filtering any key value commutes with the
insertion, because the element is inserted in front of every element of
equal key and only behind elements of strictly larger key. -/
theorem insertDesc_filter_eq {α β : Type} [LinearOrder β] (key : α → β) (v : β)
    (x : α) (l : List α) :
    (insertDesc key x l).filter (fun a => decide (key a = v)) =
      ((x :: l).filter (fun a => decide (key a = v))) := by
  induction l with
  | nil => rfl
  | cons y ys ih =>
    by_cases hcond : key y ≤ key x
    · simp only [insertDesc, if_pos hcond]
    · simp only [insertDesc, if_neg hcond]
      by_cases hx : key x = v
      · have hxy : key x < key y := lt_of_not_le hcond
        have hyv : ¬ key y = v := by
          intro hv
          exact absurd (hv ▸ hx ▸ hxy) (lt_irrefl _)
        simp [List.filter_cons, ih, hx, hyv]
      · simp [List.filter_cons, ih, hx]

/-- Stability of the sort: the subsequence at any fixed key value is exactly
the input's subsequence at that value, in original order. -/
theorem sortDesc_filter_eq {α β : Type} [LinearOrder β] (key : α → β) (v : β)
    (l : List α) :
    (sortDesc key l).filter (fun a => decide (key a = v)) =
      l.filter (fun a => decide (key a = v)) := by
  induction l with
  | nil => rfl
  | cons x xs ih =>
    simp only [sortDesc]
    rw [insertDesc_filter_eq]
    simp only [List.filter_cons, ih]

/-- Every pair in the sorted scored list carries the score of its own
document. -/
theorem keywordScored_fst (q : Str) (docs : List Doc) :
    ∀ pr ∈ sortDesc Prod.fst (docs.map (fun d => (kwDocScore (kwQueryWords q) d, d))),
      pr.1 = kwScoreOf q pr.2 := by
  intro pr hpr
  have hmem := (sortDesc_perm Prod.fst _).mem_iff.mp hpr
  rcases List.mem_map.mp hmem with ⟨d, _, rfl⟩
  rfl

/-- C8 (corrected): retrieval is total and returns at most `k` documents in
weakly descending score order; the keyword fallback ranks by stable
insertion so equal scores keep original corpus order; the TF-IDF path
additionally excludes zero-score documents — but the keyword fallback does
*not* exclude them (see the counterexample), so strict positivity holds
only on the TF-IDF path. -/
theorem C8_retrieval :
    (∀ (q : Str) (docs : List Doc) (n : Nat),
      (keyword_retrieve q docs n).length ≤ n) ∧
    (∀ (q : Str) (docs : List Doc) (n : Nat),
      (keyword_retrieve q docs n).Pairwise
        (fun d e => kwScoreOf q e ≤ kwScoreOf q d)) ∧
    (∀ (q : Str) (docs : List Doc) (n : Nat),
      keyword_retrieve q docs n = (keywordRanking q docs).take n) ∧
    (∀ (q : Str) (docs : List Doc) (v : Nat),
      (keywordRanking q docs).filter (fun d => decide (kwScoreOf q d = v)) =
        docs.filter (fun d => decide (kwScoreOf q d = v))) ∧
    (∀ (ok : Bool) (scored : List (Doc × ℚ)) (n : Nat),
      (tfidf_retrieve ok scored n).length ≤ n) ∧
    (∀ (scored : List (Doc × ℚ)) (n : Nat),
      ∀ pr ∈ tfidf_retrieve true scored n, 0 < pr.2) ∧
    (∀ (scored : List (Doc × ℚ)) (n : Nat),
      (tfidf_retrieve true scored n).Pairwise (fun p r => r.2 ≤ p.2)) := by
  refine ⟨?_, ?_, ?_, ?_, ?_, ?_, ?_⟩
  · intro q docs n
    simp only [keyword_retrieve, List.length_map, List.length_take]
    exact inf_le_left
  · intro q docs n
    have h2 := (sortDesc_pairwise Prod.fst
        (docs.map (fun d => (kwDocScore (kwQueryWords q) d, d)))).imp_of_mem
      (S := fun pr qr => kwScoreOf q qr.2 ≤ kwScoreOf q pr.2)
      (fun ha hb hab => by
        rw [keywordScored_fst q docs _ ha, keywordScored_fst q docs _ hb] at hab
        exact hab)
    have h3 := List.Pairwise.sublist (List.take_sublist n _) h2
    exact List.pairwise_map.mpr h3
  · intro q docs n
    simp [keyword_retrieve, keywordRanking, List.map_take]
  · intro q docs v
    have hA : ∀ pr ∈ (docs.map (fun d => (kwDocScore (kwQueryWords q) d, d))),
        pr.1 = kwScoreOf q pr.2 := by
      intro pr hpr
      rcases List.mem_map.mp hpr with ⟨d, _, rfl⟩
      rfl
    rw [keywordRanking, List.map_filter]
    rw [List.filter_congr (fun pr hpr => by
      show decide (kwScoreOf q pr.2 = v) = decide (pr.1 = v)
      rw [keywordScored_fst q docs pr hpr])]
    rw [sortDesc_filter_eq]
    rw [List.filter_congr (fun pr hpr => by
      show decide (pr.1 = v) = decide (kwScoreOf q pr.2 = v)
      rw [hA pr hpr])]
    rw [List.map_filter]
    simp [Function.comp_def, kwScoreOf]
  · intro ok scored n
    cases ok with
    | false =>
      simp only [tfidf_retrieve, Bool.false_eq_true, if_false, List.length_take]
      exact inf_le_left
    | true =>
      simp only [tfidf_retrieve, if_true]
      exact (List.length_filter_le _ _).trans
        (by simp only [List.length_take]; exact inf_le_left)
  · intro scored n pr hpr
    simp only [tfidf_retrieve, if_true] at hpr
    have h := List.of_mem_filter hpr
    simpa using h
  · intro scored n
    have h := sortDesc_pairwise Prod.snd scored
    have h2 := List.Pairwise.sublist (List.take_sublist n _) h
    simp only [tfidf_retrieve, if_true]
    exact List.Pairwise.sublist (List.filter_sublist _) h2

/-- C8 witness: the positive-score clause applied to a concrete singleton
corpus with score 1. -/
theorem C8_witness :
    (0 : ℚ) < ((⟨("doc1").data, ("alpha").data, []⟩ : Doc), (1 : ℚ)).2 :=
  C8_retrieval.2.2.2.2.2.1 [(⟨("doc1").data, ("alpha").data, []⟩, (1 : ℚ))] 1
    (⟨("doc1").data, ("alpha").data, []⟩, (1 : ℚ)) (by decide)

/-- C8 counterexample: a query with no keyword overlap still returns both
corpus documents from the keyword fallback, each with overlap score zero —
zero-score documents are not excluded on that path. -/
theorem C8_counterexample :
    keyword_retrieve (("zzz").data)
        [⟨("d1").data, ("alpha").data, []⟩, ⟨("d2").data, ("beta").data, []⟩] 2 =
      [⟨("d1").data, ("alpha").data, []⟩, ⟨("d2").data, ("beta").data, []⟩] ∧
    kwScoreOf (("zzz").data) ⟨("d1").data, ("alpha").data, []⟩ = 0 := by
  constructor
  · decide
  · decide

/-! ## Case-store framing lemmas -/

/-- The audit append touches only the audit table. -/
theorem log_fst_cases (ok : Bool) (a : String) (c : Option String) (u : Option Nat)
    (db : DB) : ((AuditService.log ok a c u db).1).cases = db.cases := by
  cases ok <;> simp [AuditService.log]

/-- The audit append touches only the audit table. -/
theorem log_fst_versions (ok : Bool) (a : String) (c : Option String) (u : Option Nat)
    (db : DB) : ((AuditService.log ok a c u db).1).versions = db.versions := by
  cases ok <;> simp [AuditService.log]

/-- The audit append touches only the audit table. -/
theorem log_fst_alerts (ok : Bool) (a : String) (c : Option String) (u : Option Nat)
    (db : DB) : ((AuditService.log ok a c u db).1).alerts = db.alerts := by
  cases ok <;> simp [AuditService.log]

/-- A successful audit append adds exactly one row. -/
theorem log_fst_audit_true (a : String) (c : Option String) (u : Option Nat) (db : DB) :
    ((AuditService.log true a c u db).1).audit =
      db.audit ++ [⟨a, actionCategory a, c, u, true⟩] := rfl

/-- A failed audit append leaves the audit table unchanged. -/
theorem log_fst_audit_false (a : String) (c : Option String) (u : Option Nat) (db : DB) :
    ((AuditService.log false a c u db).1).audit = db.audit := rfl

/-- Alert creation touches only the alert table. -/
theorem create_alert_fst_cases (ok : Bool) (t m : String) (c cu : Option String)
    (s : Option String) (e : Bool) (db : DB) :
    ((AlertService.create_alert ok t m c cu s e db).1).cases = db.cases := by
  unfold AlertService.create_alert
  cases s <;> dsimp only <;> split <;> first | rfl | (split <;> rfl)

/-- Alert creation touches only the alert table. -/
theorem create_alert_fst_versions (ok : Bool) (t m : String) (c cu : Option String)
    (s : Option String) (e : Bool) (db : DB) :
    ((AlertService.create_alert ok t m c cu s e db).1).versions = db.versions := by
  unfold AlertService.create_alert
  cases s <;> dsimp only <;> split <;> first | rfl | (split <;> rfl)

/-- Alert creation touches only the alert table. -/
theorem create_alert_fst_audit (ok : Bool) (t m : String) (c cu : Option String)
    (s : Option String) (e : Bool) (db : DB) :
    ((AlertService.create_alert ok t m c cu s e db).1).audit = db.audit := by
  unfold AlertService.create_alert
  cases s <;> dsimp only <;> split <;> first | rfl | (split <;> rfl)

/-- A found case is an element of the table. -/
theorem findCase_mem {db : DB} {cid : String} {c0 : SARCase}
    (h : findCase db cid = some c0) : ∃ k, (k, c0) ∈ db.cases := by
  rcases Option.map_eq_some'.mp h with ⟨pr, hfind, hsnd⟩
  exact ⟨pr.1, by
    have hm := List.mem_of_find?_eq_some hfind
    rwa [show (pr.1, c0) = pr from by rw [← hsnd]]⟩

/-- After writing the mutated case back, the lookup returns it. -/
theorem find?_update {l : List (String × SARCase)} {cid : String} (c' : SARCase)
    (h : (l.find? (fun p => p.1 == cid)).isSome) :
    ((updateCase l cid c').find? (fun p => p.1 == cid)).map (fun p => p.2) = some c' := by
  induction l with
  | nil => simp [List.find?] at h
  | cons hd tl ih =>
    simp only [updateCase, List.map_cons]
    by_cases hk : (hd.1 == cid) = true
    · rw [if_pos hk, List.find?_cons_of_pos _ (by simpa using hk)]
      rfl
    · rw [if_neg hk, List.find?_cons_of_neg _ (by simpa using hk)]
      rw [List.find?_cons_of_neg _ (by simpa using hk)] at h
      have ih' := ih h
      simpa [updateCase] using ih'

/-- `findCase` after an update on any store sharing the updated table. -/
theorem findCase_update {db db' : DB} {cid : String} {c0 : SARCase} (c' : SARCase)
    (h : findCase db cid = some c0) (h' : db'.cases = updateCase db.cases cid c') :
    findCase db' cid = some c' := by
  rw [findCase, h']
  apply find?_update
  rcases Option.map_eq_some'.mp h with ⟨pr, hfind, _⟩
  simp [hfind]

/-! ## Claim theorems for the case/version store -/

/-- C2 (corrected): `file_sar` checks only that the case exists — there is
no APPROVED precondition in the operation itself.  A missing case is
rejected without mutation; an existing case of *any* status is set to FILED
with the reference and filing timestamp stored and every other field kept,
and the call reports success.  (The APPROVED-only gating lives in the UI,
which offers the filing action only for APPROVED cases.) -/
theorem C2_file_no_status_guard :
    ∀ (db : DB) (case_id username sar_ref : String) (user_id now : Nat) (c0 : SARCase),
      (findCase db case_id = none →
        file_sar true true true now case_id username sar_ref user_id db = (db, false)) ∧
      (findCase db case_id = some c0 →
        (file_sar true true true now case_id username sar_ref user_id db).2 = true ∧
        findCase (file_sar true true true now case_id username sar_ref user_id db).1
            case_id =
          some { c0 with status := CaseStatus.FILED, sar_reference := some sar_ref,
                         filed_at := some now, updated_at := now } ∧
        (file_sar true true true now case_id username sar_ref user_id db).1.versions =
          db.versions) := by
  intro db case_id username sar_ref user_id now c0
  constructor
  · intro h
    simp [file_sar, h]
  · intro h
    have heq : file_sar true true true now case_id username sar_ref user_id db =
        ((AlertService.create_alert true "SAR_FILED"
            ("SAR Case " ++ case_id ++ " has been filed with FIU-IND. Reference: " ++ sar_ref)
            (some case_id) none none false
          (AuditService.log true "SAR_FILED" (some case_id) (some user_id)
            { db with cases := (updateCase db.cases case_id
                { c0 with status := CaseStatus.FILED, sar_reference := some sar_ref,
                          filed_at := some now, updated_at := now }) }).1).1, true) := by
      simp [file_sar, h]
    rw [heq]
    refine ⟨rfl, ?_, ?_⟩
    · exact findCase_update _ h
        (by rw [create_alert_fst_cases, log_fst_cases])
    · rw [create_alert_fst_versions, log_fst_versions]

/-- C2 witness: the theorem applied to the store holding one OPEN case. -/
theorem C2_witness :
    (file_sar true true true 5 "SAR-1" "carol" "STR-42" 7 openDB).2 = true ∧
    findCase (file_sar true true true 5 "SAR-1" "carol" "STR-42" 7 openDB).1 "SAR-1" =
      some { openCase with status := CaseStatus.FILED, sar_reference := some "STR-42",
                           filed_at := some 5, updated_at := 5 } ∧
    (file_sar true true true 5 "SAR-1" "carol" "STR-42" 7 openDB).1.versions =
      openDB.versions :=
  (C2_file_no_status_guard openDB "SAR-1" "carol" "STR-42" 7 5 openCase).2 (by decide)

/-- C2 counterexample: filing the OPEN (never approved) case succeeds and
moves it to FILED, contradicting the claimed rejection without mutation. -/
theorem C2_counterexample :
    openCase.status = CaseStatus.OPEN ∧
    (file_sar true true true 5 "SAR-1" "carol" "STR-42" 7 openDB).2 = true ∧
    (findCase (file_sar true true true 5 "SAR-1" "carol" "STR-42" 7 openDB).1
        "SAR-1").map (fun c => (c.status, c.sar_reference, c.filed_at)) =
      some (CaseStatus.FILED, some "STR-42", some 5) := by
  refine ⟨rfl, ?_, ?_⟩ <;> decide

/-- C3 (corrected): `save_edited_narrative` applies no status guard: for any
existing case — APPROVED, FILED and CLOSED included — the edit succeeds,
bumps the counter (`(v or 1) + 1`), appends one EDIT version row carrying
the new text and updates the working narrative; a missing case fails with no
mutation.  (The read-only lock for APPROVED/FILED/CLOSED cases is enforced
only by the UI, which renders those cases without an edit box.) -/
theorem C3_save_edit_no_status_guard :
    ∀ (db : DB) (case_id new_narrative username : String) (user_id now : Nat)
      (c0 : SARCase),
      (findCase db case_id = none →
        save_edited_narrative true true now case_id new_narrative username user_id db =
          (db, false)) ∧
      (findCase db case_id = some c0 →
        (save_edited_narrative true true now case_id new_narrative username user_id
          db).2 = true ∧
        findCase (save_edited_narrative true true now case_id new_narrative username
            user_id db).1 case_id =
          some { c0 with edited_narrative := some new_narrative,
                         narrative_version := pyOrNat c0.narrative_version + 1,
                         updated_at := now } ∧
        (save_edited_narrative true true now case_id new_narrative username user_id
          db).1.versions =
          db.versions ++
            [{ case_id := case_id, version_number := pyOrNat c0.narrative_version + 1,
               narrative_text := new_narrative, change_type := "EDIT",
               change_summary := "Edited by analyst " ++ username,
               changed_by := some username }]) := by
  intro db case_id new_narrative username user_id now c0
  constructor
  · intro h
    simp [save_edited_narrative, h]
  · intro h
    have heq : save_edited_narrative true true now case_id new_narrative username user_id db = ((AuditService.log true "NARRATIVE_EDITED" (some case_id) (some user_id) { db with cases := updateCase db.cases case_id { c0 with edited_narrative := some new_narrative, narrative_version := pyOrNat c0.narrative_version + 1, updated_at := now }, versions := db.versions ++ [{ case_id := case_id, version_number := pyOrNat c0.narrative_version + 1, narrative_text := new_narrative, change_type := "EDIT", change_summary := "Edited by analyst " ++ username, changed_by := some username }] }).1, true) := by
      simp [save_edited_narrative, h]
    rw [heq]
    refine ⟨rfl, ?_, ?_⟩
    · exact findCase_update _ h (by rw [log_fst_cases])
    · rw [log_fst_versions]

/-- C3 witness: the theorem applied to the store holding one APPROVED case. -/
theorem C3_witness :
    (save_edited_narrative true true 9 "SAR-2" "changed" "alice" 7 approvedDB).2 = true ∧
    findCase (save_edited_narrative true true 9 "SAR-2" "changed" "alice" 7
        approvedDB).1 "SAR-2" =
      some { approvedCase with edited_narrative := some "changed",
                               narrative_version := pyOrNat approvedCase.narrative_version + 1,
                               updated_at := 9 } ∧
    (save_edited_narrative true true 9 "SAR-2" "changed" "alice" 7
        approvedDB).1.versions =
      approvedDB.versions ++
        [{ case_id := "SAR-2", version_number := pyOrNat approvedCase.narrative_version + 1,
           narrative_text := "changed", change_type := "EDIT",
           change_summary := "Edited by analyst " ++ "alice",
           changed_by := some "alice" }] :=
  (C3_save_edit_no_status_guard approvedDB "SAR-2" "changed" "alice" 7 9
    approvedCase).2 (by decide)

/-- C3 counterexample: editing the APPROVED case succeeds — the counter
advances, an EDIT row is appended and the working text changes —
contradicting the claimed illegality on APPROVED/FILED/CLOSED cases. -/
theorem C3_counterexample :
    approvedCase.status = CaseStatus.APPROVED ∧
    (save_edited_narrative true true 9 "SAR-2" "changed" "alice" 7 approvedDB).2 = true ∧
    (findCase (save_edited_narrative true true 9 "SAR-2" "changed" "alice" 7
        approvedDB).1 "SAR-2").map
      (fun c => (c.narrative_version, c.edited_narrative)) = some (3, some "changed") ∧
    (save_edited_narrative true true 9 "SAR-2" "changed" "alice" 7
        approvedDB).1.versions.map (fun v => (v.version_number, v.change_type)) =
      [(3, "EDIT")] := by
  refine ⟨rfl, ?_, ?_, ?_⟩ <;> decide

/-- C1 (corrected): a successful `save_edited_narrative` or `approve_case`
appends exactly one NarrativeVersion row, and one AuditLogEntry when the
audit store is available; a successful `file_sar` appends one AuditLogEntry
but *no* NarrativeVersion row.  The pair is not atomic: the case/version
commit happens before the audit append, whose failure the audit service
swallows, so the already-committed version row and case mutation persist and
the call still reports success.  Only a failure of the operation's own
commit leaves the store unchanged. -/
theorem C1_version_audit_pairing :
    ∀ (db : DB) (case_id text user notes ref : String) (user_id now : Nat) (c0 : SARCase),
      findCase db case_id = some c0 →
      ((save_edited_narrative true true now case_id text user user_id db).2 = true ∧
        (save_edited_narrative true true now case_id text user user_id db).1.versions.length =
          db.versions.length + 1 ∧
        (save_edited_narrative true true now case_id text user user_id db).1.audit.length =
          db.audit.length + 1) ∧
      ((save_edited_narrative true false now case_id text user user_id db).2 = true ∧
        (save_edited_narrative true false now case_id text user user_id db).1.versions.length =
          db.versions.length + 1 ∧
        (save_edited_narrative true false now case_id text user user_id db).1.audit =
          db.audit) ∧
      (∀ auditOk : Bool,
        save_edited_narrative false auditOk now case_id text user user_id db =
          (db, false)) ∧
      ((approve_case true true true now case_id user notes user_id db).2 = true ∧
        (approve_case true true true now case_id user notes user_id db).1.versions.length =
          db.versions.length + 1 ∧
        (approve_case true true true now case_id user notes user_id db).1.audit.length =
          db.audit.length + 1) ∧
      ((file_sar true true true now case_id user ref user_id db).2 = true ∧
        (file_sar true true true now case_id user ref user_id db).1.versions =
          db.versions ∧
        (file_sar true true true now case_id user ref user_id db).1.audit.length =
          db.audit.length + 1) := by
  intro db case_id text user notes ref user_id now c0 h
  refine ⟨⟨?_, ?_, ?_⟩, ⟨?_, ?_, ?_⟩, ?_, ⟨?_, ?_, ?_⟩, ⟨?_, ?_, ?_⟩⟩
  · simp [save_edited_narrative, h]
  · simp [save_edited_narrative, h, log_fst_versions]
  · simp [save_edited_narrative, h, log_fst_audit_true]
  · simp [save_edited_narrative, h]
  · simp [save_edited_narrative, h, log_fst_versions]
  · simp [save_edited_narrative, h, log_fst_audit_false]
  · intro auditOk
    simp [save_edited_narrative, h]
  · simp [approve_case, h]
  · simp [approve_case, h, create_alert_fst_versions, log_fst_versions]
  · simp [approve_case, h, create_alert_fst_audit, log_fst_audit_true]
  · simp [file_sar, h]
  · simp [file_sar, h, create_alert_fst_versions, log_fst_versions]
  · simp [file_sar, h, create_alert_fst_audit, log_fst_audit_true]

/-- C1 witness: the audit-pairing theorem applied to the one-case store. -/
theorem C1_witness :
    (save_edited_narrative true true 1 "SAR-1" "t" "u" 7 openDB).1.audit.length =
      openDB.audit.length + 1 :=
  ((C1_version_audit_pairing openDB "SAR-1" "t" "u" "n" "r" 7 1 openCase
    (by decide)).1).2.2

/-- C1 counterexample: on the one-case store a forced audit-append failure
does not roll back the already-committed edit — the call still reports
success, the NarrativeVersion row stays, and no AuditLogEntry exists; and a
successful `file_sar` appends no NarrativeVersion row at all. -/
theorem C1_counterexample :
    (save_edited_narrative true false 1 "SAR-1" "t2" "alice" 7 openDB).2 = true ∧
    (save_edited_narrative true false 1 "SAR-1" "t2" "alice" 7 openDB).1.versions.length =
      openDB.versions.length + 1 ∧
    (save_edited_narrative true false 1 "SAR-1" "t2" "alice" 7 openDB).1.audit = [] ∧
    (file_sar true true true 1 "SAR-1" "bob" "R-1" 7 openDB).2 = true ∧
    (file_sar true true true 1 "SAR-1" "bob" "R-1" 7 openDB).1.versions.length =
      openDB.versions.length := by
  refine ⟨?_, ?_, ?_, ?_, ?_⟩ <;> decide

/-- C4 (code bug): `approve_case` numbers its APPROVED snapshot
`(narrative_version or 1) + 1` but never writes the incremented counter back
to the case, so the counter does not strictly increase on approval; a
subsequent edit then reuses the same version number, duplicating it in the
history. -/
theorem C4_approve_does_not_advance_counter :
    (approve_case true true true 1 "SAR-1" "bob" "ok" 7 openDB).2 = true ∧
    (findCase (approve_case true true true 1 "SAR-1" "bob" "ok" 7 openDB).1
        "SAR-1").map (fun c => c.narrative_version) = some 1 ∧
    ((approve_case true true true 1 "SAR-1" "bob" "ok" 7 openDB).1).versions.map
      (fun v => v.version_number) = [1, 2] ∧
    ((save_edited_narrative true true 2 "SAR-1" "edit2" "alice" 7
        (approve_case true true true 1 "SAR-1" "bob" "ok" 7 openDB).1).1).versions.map
      (fun v => (v.version_number, v.change_type)) =
      [(1, "GENERATED"), (2, "APPROVED"), (2, "EDIT")] := by
  refine ⟨?_, ?_, ?_, ?_⟩ <;> decide

/-- Each store operation preserves the final-narrative invariant (with
REJECTED admitted, since `reject_case` does not clear `final_narrative`). -/
theorem applyOp_inv {db : DB} (op : Op) (h : DBInv db) : DBInv (applyOp db op) := by
  cases op with
  | createCase ck now cid narr =>
    simp only [applyOp, save_case]
    cases hf : (findCase db cid).isSome with
    | true => simpa using h
    | false =>
      cases ck with
      | false => simpa using h
      | true =>
        simp only [Bool.false_eq_true, if_false, if_true]
        intro p hp
        rcases List.mem_append.mp hp with hp | hp
        · exact h p hp
        · have hp' : p = (cid,
              { status := CaseStatus.IN_REVIEW, generated_narrative := some narr,
                edited_narrative := none, final_narrative := none, narrative_version := 1,
                sar_reference := none, filed_at := none, approved_by := none,
                analyst_notes := none, rejection_reason := none,
                updated_at := now }) := by
            simpa using hp
          rw [hp']
          intro hne
          exact absurd rfl hne
  | saveEdit ck ak now cid text user uid =>
    simp only [applyOp]
    cases hf : findCase db cid with
    | none =>
      simp only [save_edited_narrative, hf]
      exact h
    | some c0 =>
      cases ck with
      | false =>
        simp only [save_edited_narrative, hf]
        exact h
      | true =>
        simp only [save_edited_narrative, hf]
        intro p hp
        rw [if_pos trivial] at hp
        rw [log_fst_cases] at hp
        simp only [updateCase] at hp
        rcases List.mem_map.mp hp with ⟨q, hq, rfl⟩
        by_cases hk : (q.1 == cid) = true
        · rw [if_pos hk]
          have hc0 : CaseInv c0 := by
            rcases findCase_mem hf with ⟨k, hm⟩
            exact h (k, c0) hm
          exact hc0
        · rw [if_neg hk]
          exact h q hq
  | approve ck ak lk now cid user notes uid =>
    simp only [applyOp]
    cases hf : findCase db cid with
    | none =>
      simp only [approve_case, hf]
      exact h
    | some c0 =>
      cases ck with
      | false =>
        simp only [approve_case, hf]
        exact h
      | true =>
        simp only [approve_case, hf]
        intro p hp
        rw [if_pos trivial] at hp
        rw [create_alert_fst_cases, log_fst_cases] at hp
        simp only [updateCase] at hp
        rcases List.mem_map.mp hp with ⟨q, hq, rfl⟩
        by_cases hk : (q.1 == cid) = true
        · rw [if_pos hk]
          exact fun _ => Or.inl rfl
        · rw [if_neg hk]
          exact h q hq
  | reject ck ak lk now cid user reason uid =>
    simp only [applyOp]
    cases hf : findCase db cid with
    | none =>
      simp only [reject_case, hf]
      exact h
    | some c0 =>
      cases ck with
      | false =>
        simp only [reject_case, hf]
        exact h
      | true =>
        simp only [reject_case, hf]
        intro p hp
        rw [if_pos trivial] at hp
        rw [create_alert_fst_cases, log_fst_cases] at hp
        simp only [updateCase] at hp
        rcases List.mem_map.mp hp with ⟨q, hq, rfl⟩
        by_cases hk : (q.1 == cid) = true
        · rw [if_pos hk]
          exact fun _ => Or.inr (Or.inr rfl)
        · rw [if_neg hk]
          exact h q hq
  | file ck ak lk now cid user ref uid =>
    simp only [applyOp]
    cases hf : findCase db cid with
    | none =>
      simp only [file_sar, hf]
      exact h
    | some c0 =>
      cases ck with
      | false =>
        simp only [file_sar, hf]
        exact h
      | true =>
        simp only [file_sar, hf]
        intro p hp
        rw [if_pos trivial] at hp
        rw [create_alert_fst_cases, log_fst_cases] at hp
        simp only [updateCase] at hp
        rcases List.mem_map.mp hp with ⟨q, hq, rfl⟩
        by_cases hk : (q.1 == cid) = true
        · rw [if_pos hk]
          exact fun _ => Or.inr (Or.inl rfl)
        · rw [if_neg hk]
          exact h q hq

/-- The invariant is preserved along any operation sequence. -/
theorem applyOps_inv : ∀ (ops : List Op) (db : DB), DBInv db → DBInv (applyOps db ops)
  | [], _, h => h
  | op :: ops, db, h => applyOps_inv ops (applyOp db op) (applyOp_inv op h)

/-- C5 (corrected): for every store reachable from the empty store by any
sequence of createCase, saveEdit, approve, reject and file operations, every
case with a non-null `final_narrative` has status APPROVED, FILED or
REJECTED.  (REJECTED must be admitted: `reject_case` does not clear
`final_narrative`, so rejecting an approved case keeps the final text — see
the counterexample for the claimed {APPROVED, FILED}-only invariant.) -/
theorem C5_final_narrative_invariant :
    ∀ ops : List Op, DBInv (applyOps DB.empty ops) := by
  intro ops
  apply applyOps_inv
  intro p hp
  simp [DB.empty] at hp

/-- C5 witness: the invariant read off for the case produced by a create
followed by an approve. -/
theorem C5_witness :
    ({ status := CaseStatus.APPROVED, generated_narrative := some "narr",
       edited_narrative := none, final_narrative := some "narr",
       narrative_version := 1, sar_reference := none, filed_at := none,
       approved_by := some "bob", analyst_notes := some "ok",
       rejection_reason := none, updated_at := 1 } : SARCase).status =
        CaseStatus.APPROVED ∨
      ({ status := CaseStatus.APPROVED, generated_narrative := some "narr",
         edited_narrative := none, final_narrative := some "narr",
         narrative_version := 1, sar_reference := none, filed_at := none,
         approved_by := some "bob", analyst_notes := some "ok",
         rejection_reason := none, updated_at := 1 } : SARCase).status =
          CaseStatus.FILED ∨
      ({ status := CaseStatus.APPROVED, generated_narrative := some "narr",
         edited_narrative := none, final_narrative := some "narr",
         narrative_version := 1, sar_reference := none, filed_at := none,
         approved_by := some "bob", analyst_notes := some "ok",
         rejection_reason := none, updated_at := 1 } : SARCase).status =
          CaseStatus.REJECTED :=
  C5_final_narrative_invariant
    [Op.createCase true 0 "C1" "narr", Op.approve true true true 1 "C1" "bob" "ok" 7]
    ("C1",
      { status := CaseStatus.APPROVED, generated_narrative := some "narr",
        edited_narrative := none, final_narrative := some "narr",
        narrative_version := 1, sar_reference := none, filed_at := none,
        approved_by := some "bob", analyst_notes := some "ok",
        rejection_reason := none, updated_at := 1 })
    (by decide) (by decide)

/-- C5 counterexample: create, approve, then reject — reachable through the
modelled operations — leaves `final_narrative` set on a REJECTED case,
violating the claimed `status ∈ {APPROVED, FILED}` invariant. -/
theorem C5_counterexample :
    (findCase (applyOps DB.empty
        [Op.createCase true 0 "C1" "narr",
         Op.approve true true true 1 "C1" "bob" "ok" 7,
         Op.reject true true true 2 "C1" "bob" "bad" 7]) "C1").map
      (fun c => (c.status, c.final_narrative)) =
      some (CaseStatus.REJECTED, some "narr") ∧
    ¬ (CaseStatus.REJECTED = CaseStatus.APPROVED ∨
        CaseStatus.REJECTED = CaseStatus.FILED) := by
  refine ⟨?_, ?_⟩ <;> decide

/-- C10 (confirmed): an alert type absent from the fixed type table defaults
to MEDIUM severity when no explicit severity is passed, uses the raw type
string as the title, and is persisted; any persistence failure is caught
inside `create_alert`, which rolls back and returns `None` instead of
raising. -/
theorem C10_create_alert_defaults :
    (∀ (t m : String) (c cu : Option String) (db : DB),
      ALERT_TYPES.find? (fun p => p.1 == t) = none →
      AlertService.create_alert true t m c cu none false db =
        ({ db with alerts := db.alerts ++
            [{ alert_type := t, severity := AlertSeverity.MEDIUM, title := t,
               message := m, case_id := c, customer_id := cu, is_read := false,
               sent_via_email := false }] },
         some { alert_type := t, severity := AlertSeverity.MEDIUM, title := t,
                message := m, case_id := c, customer_id := cu, is_read := false,
                sent_via_email := false })) ∧
    (∀ (t m : String) (c cu : Option String) (s : Option String) (e : Bool) (db : DB),
      AlertService.create_alert false t m c cu s e db = (db, none)) := by
  constructor
  · intro t m c cu db h
    simp [AlertService.create_alert, alertTypeDefaultSeverity, alertTypeTitle, h,
      parseSeverity]
  · intro t m c cu s e db
    unfold AlertService.create_alert
    cases s <;> dsimp only <;> split <;> rfl

/-- C10 witness: the defaulting clause applied to a concrete unknown alert
type on the empty store. -/
theorem C10_witness :
    AlertService.create_alert true "WEIRD_TYPE" "msg" none none none false DB.empty =
      ({ DB.empty with alerts := DB.empty.alerts ++
          [{ alert_type := "WEIRD_TYPE", severity := AlertSeverity.MEDIUM,
             title := "WEIRD_TYPE", message := "msg", case_id := none,
             customer_id := none, is_read := false, sent_via_email := false }] },
       some { alert_type := "WEIRD_TYPE", severity := AlertSeverity.MEDIUM,
              title := "WEIRD_TYPE", message := "msg", case_id := none,
              customer_id := none, is_read := false, sent_via_email := false }) :=
  C10_create_alert_defaults.1 "WEIRD_TYPE" "msg" none none DB.empty (by decide)

end SARModel

